import Mathlib

/-!
Verification of the fluid-mechanics pressure-drop / achievable-flow calculator
(`pressureFlowCalcGPT5m.py`).  The Python functions are embedded shallowly:
floating-point values become real numbers, Python exceptions become an explicit
error type threaded through `Except`, and the inverse solver's `for` loop
becomes a fuel-indexed recursion.  Every definition mirrors the corresponding
source function line by line (checks in source order, same branch structure).
-/

open Real

/-- Errors raised by the Python code.  `invalidArgument` stands for
`ValueError` (explicit `raise` sites and `math` domain errors),
`unknownFitting` for the `KeyError` raised on a fitting name missing from the
catalog, `numericalError` for the `RuntimeError` raised in the inverse solver,
and `zeroDivision` for float `ZeroDivisionError`. -/
inductive Err where
  | invalidArgument : Err
  | unknownFitting : String → Err
  | numericalError : Err
  | zeroDivision : Err
  deriving DecidableEq

/-- `m3s_to_lpm(m3s)`: cubic meters per second to liters per minute. -/
noncomputable def m3s_to_lpm (m3s : ℝ) : ℝ := m3s * 1000.0 * 60.0

/-- `lpm_to_m3s(lpm)`: liters per minute to cubic meters per second. -/
noncomputable def lpm_to_m3s (lpm : ℝ) : ℝ := lpm / 1000.0 / 60.0

/-- `pa_to_psi(pa)`. -/
noncomputable def pa_to_psi (pa : ℝ) : ℝ := pa / 6894.75729

/-- `psi_to_pa(psi)`. -/
noncomputable def psi_to_pa (psi : ℝ) : ℝ := psi * 6894.75729

/-- `reynolds_number(rho, mu, v, d)`: raises `ValueError` when `mu <= 0` or
`d <= 0`, otherwise returns `rho * v * d / mu`. -/
noncomputable def reynolds_number (rho mu v d : ℝ) : Except Err ℝ :=
  if mu ≤ 0 ∨ d ≤ 0 then .error .invalidArgument
  else .ok (rho * v * d / mu)

/-- `friction_factor_haland(d, k, Re)`: raises `ValueError` when `Re <= 0`;
for `Re < 2300` returns the laminar value `64.0 / Re`; otherwise evaluates the
Haaland formula `(-1.8 * log10((k/(3.7*d))**1.11 + 6.9/Re))**-2`.
The guards in the turbulent branch record where CPython would fail before
producing a value: `d = 0` gives a `ZeroDivisionError` in `k / (3.7 * d)`;
a negative base `k / (3.7 * d)` makes `** 1.11` produce a complex number and
`math.log10` then rejects it (folded into `invalidArgument`); a non-positive
`term` is a `math.log10` domain `ValueError`; and a zero logarithm makes
`0.0 ** -2` a `ZeroDivisionError`. -/
noncomputable def friction_factor_haland (d k Re : ℝ) : Except Err ℝ :=
  if Re ≤ 0 then .error .invalidArgument
  else if Re < 2300 then .ok (64.0 / Re)
  else if d = 0 then .error .zeroDivision
  else if k / (3.7 * d) < 0 then .error .invalidArgument
  else
    let term := (k / (3.7 * d)) ^ (1.11 : ℝ) + 6.9 / Re
    if term ≤ 0 then .error .invalidArgument
    else if (-1.8 * Real.logb 10 term) = 0 then .error .zeroDivision
    else .ok ((-1.8 * Real.logb 10 term) ^ (-2 : ℤ))

/-- `darcy_weisbach_loss(f, L, d, v)`. -/
noncomputable def darcy_weisbach_loss (f L d v : ℝ) : ℝ :=
  f * (L / d) * 0.5 * v ^ 2 * 1.0

/-- The module-level `STANDARD_FITTING_K` dict, as an association list in
source order. -/
noncomputable def STANDARD_FITTING_K : List (String × ℝ) :=
  [("straight_open_valve", 0.05),
   ("globe_valve", 10.0),
   ("gate_valve", 0.2),
   ("90_elbow_smooth", 0.3),
   ("90_elbow_sharp", 1.5),
   ("45_elbow", 0.2),
   ("tee_run", 0.6),
   ("tee_branch", 1.8),
   ("hose_barb", 2.0),
   ("full_port_ball_valve", 0.05),
   ("filter", 1.0),
   ("quick_connect", 0.8)]

/-- The accumulator loop of `minor_loss_coeffs`: walks the fitting names,
raising `KeyError f` at the first name not in the catalog, otherwise adding
its coefficient to the running total. -/
noncomputable def minorLossGo : ℝ → List String → Except Err ℝ
  | acc, [] => .ok acc
  | acc, f :: rest =>
    match STANDARD_FITTING_K.lookup f with
    | none => .error (.unknownFitting f)
    | some K => minorLossGo (acc + K) rest

/-- `minor_loss_coeffs(fittings)`: `0.0` for an empty (or absent) list, else
the sum of catalog coefficients, raising `KeyError` on an unknown name. -/
noncomputable def minor_loss_coeffs (fittings : List String) : Except Err ℝ :=
  if fittings = [] then .ok 0.0 else minorLossGo 0.0 fittings

/-- The dict returned by `pressure_drop_pipe`. -/
structure PressureDropResult where
  Q_m3s : ℝ
  velocity_m_s : ℝ
  Re : ℝ
  friction_factor : ℝ
  friction_loss_Pa : ℝ
  minor_loss_Pa : ℝ
  total_loss_Pa : ℝ
  total_loss_psi : ℝ


/-- `pressure_drop_pipe(rho, mu, Q, d, L, k, fittings)`: validates `Q`, `d`,
`L` and the area, then computes velocity, Reynolds number and friction factor
(both defined as `0.0` when `v > 0` fails), frictional and minor losses, and
returns the result dict.  `fittings = []` models both `None` (the Python
default) and an empty list: the call guards `minor_loss_coeffs` with the
truthiness test `if fittings`. -/
noncomputable def pressure_drop_pipe (rho mu Q d L k : ℝ) (fittings : List String) :
    Except Err PressureDropResult :=
  if Q < 0 then .error .invalidArgument
  else if d ≤ 0 ∨ L < 0 then .error .invalidArgument
  else
    let A := Real.pi * (d / 2.0) ^ 2
    if A ≤ 0 then .error .invalidArgument
    else
      let v := Q / A
      match (if v > 0 then reynolds_number rho mu v d else .ok 0.0) with
      | .error e => .error e
      | .ok Re =>
        match (if v > 0 then friction_factor_haland d k Re else .ok 0.0) with
        | .error e => .error e
        | .ok f =>
          let friction_loss := f * (L / d) * 0.5 * rho * v ^ 2
          match (if fittings = [] then Except.ok 0.0 else minor_loss_coeffs fittings) with
          | .error e => .error e
          | .ok K_total =>
            let minor_loss := K_total * 0.5 * rho * v ^ 2
            let total_loss := friction_loss + minor_loss
            .ok ⟨Q, v, Re, f, friction_loss, minor_loss, total_loss, pa_to_psi total_loss⟩

/-- The dict returned by `flow_from_pump_pressure` on its normal path. -/
structure FlowEstimateResult where
  Q_m3s : ℝ
  Q_lpm : ℝ
  velocity_m_s : ℝ
  Re : ℝ
  friction_factor : ℝ


/-- `flow_from_pump_pressure` returns the bare float `0.0` on the
`pump_deltaP_pa <= 0` path and a dict otherwise; the two shapes are kept
apart. -/
inductive FlowReturn where
  | scalar : ℝ → FlowReturn
  | result : FlowEstimateResult → FlowReturn

/-- Outcome of one pass of the inverse solver's `for` body: an exception, a
converged `break` with the updated velocity (`v = v_new` but `Q` untouched),
or a continuation with the new velocity (after which `Q` is refreshed). -/
inductive StepOut where
  | fail : Err → StepOut
  | brk : ℝ → StepOut
  | next : ℝ → StepOut

/-- One pass of the `for i in range(maxiter)` body of
`flow_from_pump_pressure`: recompute `Re`, recompute `f` (guarded by
`v > 0`), form the half-denominator `rho * (f * (L/d) + K_total) / 2`, raise
`RuntimeError` when it is non-positive, take `v_new = sqrt(pump / denom)`
(the domain guard mirrors `math.sqrt`), and test `abs(v_new - v) < tol`. -/
noncomputable def flowStep (rho mu d L k K_total pump_deltaP_pa tol v : ℝ) : StepOut :=
  match reynolds_number rho mu v d with
  | .error e => .fail e
  | .ok Re =>
    match (if v > 0 then friction_factor_haland d k Re else .ok 0.0) with
    | .error e => .fail e
    | .ok f =>
      let denom := rho * (f * (L / d) + K_total) / 2.0
      if denom ≤ 0 then .fail .numericalError
      else if pump_deltaP_pa / denom < 0 then .fail .invalidArgument
      else
        let v_new := Real.sqrt (pump_deltaP_pa / denom)
        if |v_new - v| < tol then .brk v_new else .next v_new

/-- The full `for` loop, indexed by remaining iterations.  State `(v, Q)`:
on a `break` the loop returns the updated `v` with the stale `Q`; on a normal
pass it recurses with `v = v_new` and `Q = A * v_new`; when the budget is
exhausted (the loop's `else: pass`) it returns the current state. -/
noncomputable def flowLoop (rho mu d L k K_total pump_deltaP_pa tol A : ℝ) :
    ℕ → ℝ → ℝ → Except Err (ℝ × ℝ)
  | 0, v, Q => .ok (v, Q)
  | Nat.succ n, v, Q =>
    match flowStep rho mu d L k K_total pump_deltaP_pa tol v with
    | .fail e => .error e
    | .brk vb => .ok (vb, Q)
    | .next vn => flowLoop rho mu d L k K_total pump_deltaP_pa tol A n vn (A * vn)

/-- `flow_from_pump_pressure(rho, mu, d, L, pump_deltaP_pa, k, fittings, tol,
maxiter)`.  Returns `0.0` (a bare float) when `pump_deltaP_pa <= 0`.
Otherwise: area, `K_total` (with the same truthiness guard as in
`pressure_drop_pipe`), the seed velocity
`v = sqrt((2 * pump) / (rho * (0.02 * (L/d) + K_total)))` — where `d = 0`
or a zero denominator is a float `ZeroDivisionError` and a negative sqrt
argument a `math` domain `ValueError` — then `Q = A * v`, the iteration, and
the final dict whose `Re` and `friction_factor` are recomputed from the final
velocity (each guarded by `v > 0`). -/
noncomputable def flow_from_pump_pressure (rho mu d L pump_deltaP_pa k : ℝ)
    (fittings : List String) (tol : ℝ) (maxiter : ℕ) : Except Err FlowReturn :=
  if pump_deltaP_pa ≤ 0 then .ok (.scalar 0.0)
  else
    let A := Real.pi * (d / 2.0) ^ 2
    match (if fittings = [] then Except.ok 0.0 else minor_loss_coeffs fittings) with
    | .error e => .error e
    | .ok K_total =>
      if d = 0 then .error .zeroDivision
      else
        let D := rho * (0.02 * (L / d) + K_total)
        if D = 0 then .error .zeroDivision
        else if (2 * pump_deltaP_pa) / D < 0 then .error .invalidArgument
        else
          let v0 := Real.sqrt ((2 * pump_deltaP_pa) / D)
          let Q0 := A * v0
          match flowLoop rho mu d L k K_total pump_deltaP_pa tol A maxiter v0 Q0 with
          | .error e => .error e
          | .ok (v, Q) =>
            match (if v > 0 then reynolds_number rho mu v d else .ok 0.0) with
            | .error e => .error e
            | .ok ReF =>
              match (if v > 0 then
                      (reynolds_number rho mu v d).bind (friction_factor_haland d k)
                    else .ok 0.0) with
              | .error e => .error e
              | .ok fF =>
                .ok (.result ⟨Q, m3s_to_lpm Q, v, ReF, fF⟩)

/-- `nonconvRun n v vend` says: starting from velocity `v`, the next `n`
passes of the inverse solver's loop body all complete normally and all fail
the tolerance test (no exception, no `break`), ending at velocity `vend`. -/
def nonconvRun (rho mu d L k K_total pump_deltaP_pa tol : ℝ) : ℕ → ℝ → ℝ → Prop
  | 0, v, vend => v = vend
  | Nat.succ n, v, vend =>
    ∃ w, flowStep rho mu d L k K_total pump_deltaP_pa tol v = .next w ∧
      nonconvRun rho mu d L k K_total pump_deltaP_pa tol n w vend

/-- The Haaland friction value as a function of the logarithm argument
`term = (k/(3.7*d))^1.11 + 6.9/Re`: the expression the turbulent branch of
`friction_factor_haland` returns. -/
noncomputable def haalandF (t : ℝ) : ℝ := (-1.8 * Real.logb 10 t) ^ (-2 : ℤ)

/-- The friction factor of the round-trip scenario (`d = 0.01905`,
`k = 1.5e-6`, `rho = 1050`, `mu = 0.002`) as a function of the velocity:
`haalandF` applied to the term built from the Reynolds number
`1050 * v * 0.01905 / 0.002` that `reynolds_number` produces. -/
noncomputable def rtF (v : ℝ) : ℝ :=
  haalandF ((1.5e-6 / (3.7 * 0.01905) : ℝ) ^ (1.11 : ℝ) + 6.9 / (1050 * v * 0.01905 / 0.002))

/-- The total pressure drop `pressure_drop_pipe` computes in the round-trip
scenario (no fittings) from the velocity `vs`: friction loss
`f * (L/d) * 0.5 * rho * vs^2` plus the zero minor loss. -/
noncomputable def rtDP (vs : ℝ) : ℝ :=
  rtF vs * (10 / 0.01905) * 0.5 * 1050 * vs ^ 2 + 0.0 * 0.5 * 1050 * vs ^ 2

/-! ### Helper lemmas about the fitting-catalog loop -/

theorem minorLossGo_sum (l : List String) (acc : ℝ)
    (h : ∀ x ∈ l, (STANDARD_FITTING_K.lookup x).isSome) :
    minorLossGo acc l =
      .ok (acc + (l.map fun x => (STANDARD_FITTING_K.lookup x).getD 0).sum) := by
  induction l generalizing acc with
  | nil => simp [minorLossGo]
  | cons a t ih =>
    obtain ⟨K, hK⟩ := Option.isSome_iff_exists.mp (h a (by simp))
    have ht : ∀ x ∈ t, (STANDARD_FITTING_K.lookup x).isSome :=
      fun x hx => h x (by simp [hx])
    simp only [minorLossGo, hK, ih _ ht, List.map_cons, List.sum_cons, Option.getD_some]
    ring_nf

theorem minorLossGo_missing (l : List String)
    (h : ∃ x ∈ l, STANDARD_FITTING_K.lookup x = none) :
    ∃ y, y ∈ l ∧ STANDARD_FITTING_K.lookup y = none ∧
      ∀ acc : ℝ, minorLossGo acc l = .error (.unknownFitting y) := by
  induction l with
  | nil => simp at h
  | cons a t ih =>
    cases hK : STANDARD_FITTING_K.lookup a with
    | none => exact ⟨a, by simp, hK, fun acc => by simp [minorLossGo, hK]⟩
    | some K =>
      obtain ⟨x, hx, hnone⟩ := h
      rcases List.mem_cons.mp hx with rfl | hxt
      · exact absurd hnone (by simp [hK])
      · obtain ⟨y, hy, hynone, hgo⟩ := ih ⟨x, hxt, hnone⟩
        exact ⟨y, by simp [hy], hynone, fun acc => by simp [minorLossGo, hK, hgo]⟩

/-- C9: `minor_loss_coeffs` returns 0 on the empty list, the sum of the
catalog coefficients when every requested name is present, and fails with
`unknownFitting` for a name of the list (no partial sum) as soon as any
requested name is absent from the catalog. -/
theorem minor_loss_coeffs_spec :
    (minor_loss_coeffs [] = .ok 0) ∧
    (∀ fittings : List String,
      (∀ x ∈ fittings, (STANDARD_FITTING_K.lookup x).isSome) →
      minor_loss_coeffs fittings =
        .ok ((fittings.map fun x => (STANDARD_FITTING_K.lookup x).getD 0).sum)) ∧
    (∀ fittings : List String,
      (∃ x ∈ fittings, STANDARD_FITTING_K.lookup x = none) →
      ∃ y, y ∈ fittings ∧ STANDARD_FITTING_K.lookup y = none ∧
        minor_loss_coeffs fittings = .error (.unknownFitting y)) := by
  refine ⟨by simp [minor_loss_coeffs]; norm_num, fun fittings h => ?_, fun fittings h => ?_⟩
  · rcases eq_or_ne fittings [] with rfl | hne
    · simp [minor_loss_coeffs]; norm_num
    · rw [minor_loss_coeffs, if_neg hne, minorLossGo_sum fittings 0.0 h]
      norm_num
  · obtain ⟨y, hy, hynone, hgo⟩ := minorLossGo_missing fittings h
    have hne : fittings ≠ [] := by rintro rfl; simp at hy
    exact ⟨y, hy, hynone, by rw [minor_loss_coeffs, if_neg hne, hgo]⟩

/-- Witness for C9 at concrete inputs: a known pair of fittings sums to
`0.2 + 2.0 = 2.2`, and an unknown name fails with `unknownFitting`. -/
theorem minor_loss_coeffs_spec_witness :
    minor_loss_coeffs ["gate_valve", "hose_barb"] = .ok 2.2 ∧
    (∃ y, y ∈ ["not_a_real_fitting"] ∧ STANDARD_FITTING_K.lookup y = none ∧
      minor_loss_coeffs ["not_a_real_fitting"] = .error (.unknownFitting y)) := by
  constructor
  · rw [minor_loss_coeffs_spec.2.1 ["gate_valve", "hose_barb"]
      (by simp [STANDARD_FITTING_K, List.lookup])]
    simp [STANDARD_FITTING_K, List.lookup]
    norm_num
  · exact minor_loss_coeffs_spec.2.2 ["not_a_real_fitting"]
      ⟨"not_a_real_fitting", by simp, by simp [STANDARD_FITTING_K, List.lookup]⟩

/-- C6: `friction_factor_haland` fails with `invalidArgument` (the Python
`ValueError`) for every `Re ≤ 0`; for `0 < Re < 2300` it returns exactly
`64 / Re`, independent of `d` and `k`; and for `Re ≥ 2300` (valid geometry,
non-negative roughness, Haaland expression defined) it returns the Haaland
value `(-1.8 * log10((k/(3.7*d))^1.11 + 6.9/Re))^(-2)`, with no smoothing at
the `Re = 2300` boundary: the laminar formula applies strictly below 2300 and
the Haaland formula at and above it. -/
theorem friction_factor_haland_cases (d k Re : ℝ) :
    (Re ≤ 0 → friction_factor_haland d k Re = .error .invalidArgument) ∧
    (0 < Re → Re < 2300 → friction_factor_haland d k Re = .ok (64.0 / Re)) ∧
    (0 < d → 0 ≤ k → 2300 ≤ Re →
      (k / (3.7 * d)) ^ (1.11 : ℝ) + 6.9 / Re ≠ 1 →
      friction_factor_haland d k Re =
        .ok ((-1.8 * Real.logb 10 ((k / (3.7 * d)) ^ (1.11 : ℝ) + 6.9 / Re)) ^ (-2 : ℤ))) := by
  refine ⟨fun h => by rw [friction_factor_haland, if_pos h], fun h1 h2 => by
    rw [friction_factor_haland, if_neg (not_le.mpr h1), if_pos h2], fun hd hk hRe hterm => ?_⟩
  have hRe0 : ¬ Re ≤ 0 := not_le.mpr (lt_of_lt_of_le (by norm_num) hRe)
  have hbase : 0 ≤ k / (3.7 * d) := div_nonneg hk (by linarith)
  have hterm_pos : 0 < (k / (3.7 * d)) ^ (1.11 : ℝ) + 6.9 / Re :=
    add_pos_of_nonneg_of_pos (Real.rpow_nonneg hbase _)
      (div_pos (by norm_num) (lt_of_lt_of_le (by norm_num) hRe))
  have hlog : Real.logb 10 ((k / (3.7 * d)) ^ (1.11 : ℝ) + 6.9 / Re) ≠ 0 := by
    intro h0
    rcases (Real.logb_eq_zero).mp h0 with h | h | h | h | h | h
    · norm_num at h
    · norm_num at h
    · norm_num at h
    · exact absurd h (ne_of_gt hterm_pos)
    · exact hterm h
    · exact absurd h (by linarith)
  rw [friction_factor_haland, if_neg hRe0, if_neg (not_lt.mpr hRe), if_neg (ne_of_gt hd),
    if_neg (not_lt.mpr hbase)]
  simp only []
  rw [if_neg (not_le.mpr hterm_pos), if_neg (mul_ne_zero (by norm_num) hlog)]

/-- Witness for C6 at concrete inputs: `Re = -1` fails, `Re = 1000` is
laminar `64/1000`, and `Re = 2300` (exactly the boundary) already takes the
Haaland branch. -/
theorem friction_factor_haland_cases_witness :
    friction_factor_haland 1 0 (-1) = .error .invalidArgument ∧
    friction_factor_haland 1 0 1000 = .ok (64.0 / 1000) ∧
    friction_factor_haland 1 0 2300 =
      .ok ((-1.8 * Real.logb 10 ((0 / (3.7 * 1)) ^ (1.11 : ℝ) + 6.9 / 2300)) ^ (-2 : ℤ)) :=
  ⟨(friction_factor_haland_cases 1 0 (-1)).1 (by norm_num),
   (friction_factor_haland_cases 1 0 1000).2.1 (by norm_num) (by norm_num),
   (friction_factor_haland_cases 1 0 2300).2.2 (by norm_num) (by norm_num) (by norm_num)
     (by rw [show ((0:ℝ) / (3.7 * 1)) = 0 by norm_num,
             Real.zero_rpow (by norm_num : (1.11:ℝ) ≠ 0)]
         norm_num)⟩

/-- C8: zero-flow identity.  For every valid fluid and geometry (`rho > 0`,
`mu > 0`, `d > 0`, `L ≥ 0`) and an empty fittings list, `pressure_drop_pipe`
with `Q = 0` succeeds and returns velocity 0, Reynolds number 0, friction
factor 0, friction loss 0, minor loss 0 and total loss 0 (in Pa and psi). -/
theorem pressure_drop_pipe_zero_flow (rho mu d L k : ℝ)
    (hrho : 0 < rho) (hmu : 0 < mu) (hd : 0 < d) (hL : 0 ≤ L) :
    pressure_drop_pipe rho mu 0 d L k [] = .ok ⟨0, 0, 0, 0, 0, 0, 0, 0⟩ := by
  have hA : 0 < Real.pi * (d / 2.0) ^ 2 := by positivity
  have h2 : ¬ (d ≤ 0 ∨ L < 0) := by push_neg; exact ⟨hd, hL⟩
  have hv : (0:ℝ) / (Real.pi * (d / 2.0) ^ 2) = 0 := zero_div _
  rw [pressure_drop_pipe, if_neg (by norm_num), if_neg h2]
  simp only [hv, if_neg (not_le.mpr hA), gt_iff_lt, lt_self_iff_false, if_false]
  norm_num [pa_to_psi]

/-- Witness for C8 at the spec's coolant scenario (`rho = 1050`,
`mu = 0.002`, `d = 0.01905`, `L = 10`, default roughness). -/
theorem pressure_drop_pipe_zero_flow_witness :
    pressure_drop_pipe 1050 0.002 0 0.01905 10 1.5e-6 [] = .ok ⟨0, 0, 0, 0, 0, 0, 0, 0⟩ :=
  pressure_drop_pipe_zero_flow 1050 0.002 0.01905 10 1.5e-6
    (by norm_num) (by norm_num) (by norm_num) (by norm_num)

/-- C10 (implicit): the zero-flow shortcut does not bypass fitting
validation.  For every call of `pressure_drop_pipe` with `Q = 0`, valid
geometry, and a non-empty fittings list containing a name absent from the
catalog, the call fails with `unknownFitting` (for a name of the list)
instead of returning the all-zero result. -/
theorem pressure_drop_pipe_zero_flow_unknown (rho mu d L k : ℝ) (fittings : List String)
    (hd : 0 < d) (hL : 0 ≤ L)
    (hbad : ∃ x ∈ fittings, STANDARD_FITTING_K.lookup x = none) :
    ∃ y, y ∈ fittings ∧ STANDARD_FITTING_K.lookup y = none ∧
      pressure_drop_pipe rho mu 0 d L k fittings = .error (.unknownFitting y) := by
  obtain ⟨y, hy, hynone, hgo⟩ := minorLossGo_missing fittings hbad
  have hne : fittings ≠ [] := by rintro rfl; simp at hy
  have hA : 0 < Real.pi * (d / 2.0) ^ 2 := by positivity
  have h2 : ¬ (d ≤ 0 ∨ L < 0) := by push_neg; exact ⟨hd, hL⟩
  have hv : (0:ℝ) / (Real.pi * (d / 2.0) ^ 2) = 0 := zero_div _
  refine ⟨y, hy, hynone, ?_⟩
  rw [pressure_drop_pipe, if_neg (by norm_num), if_neg h2]
  simp only [hv, if_neg (not_le.mpr hA), gt_iff_lt, lt_self_iff_false, if_false,
    if_neg hne, minor_loss_coeffs, hgo 0.0]

/-- Witness for C10: `Q = 0` with an unknown fitting name fails with
`unknownFitting` rather than returning the zero result. -/
theorem pressure_drop_pipe_zero_flow_unknown_witness :
    ∃ y, y ∈ ["bogus_fitting"] ∧ STANDARD_FITTING_K.lookup y = none ∧
      pressure_drop_pipe 1050 0.002 0 0.01905 10 1.5e-6 ["bogus_fitting"] =
        .error (.unknownFitting y) :=
  pressure_drop_pipe_zero_flow_unknown 1050 0.002 0.01905 10 1.5e-6 ["bogus_fitting"]
    (by norm_num) (by norm_num)
    ⟨"bogus_fitting", by simp, by simp [STANDARD_FITTING_K, List.lookup]⟩

/-- Counterexample to C5 as stated: with non-positive viscosity
`mu = -1 ≤ 0` but `Q = 0`, `pressure_drop_pipe` does NOT fail with
`invalidArgument`; it returns the all-zero result, because the viscosity
check lives inside `reynolds_number`, which is skipped when `v > 0` fails. -/
theorem pressure_drop_pipe_negative_viscosity_zero_flow_ok :
    pressure_drop_pipe 1050 (-1) 0 1 1 1.5e-6 [] = .ok ⟨0, 0, 0, 0, 0, 0, 0, 0⟩ ∧
    pressure_drop_pipe 1050 (-1) 0 1 1 1.5e-6 [] ≠ .error .invalidArgument := by
  have hA : 0 < Real.pi * ((1:ℝ) / 2.0) ^ 2 := by positivity
  have hv : (0:ℝ) / (Real.pi * ((1:ℝ) / 2.0) ^ 2) = 0 := zero_div _
  have hok : pressure_drop_pipe 1050 (-1) 0 1 1 1.5e-6 [] = .ok ⟨0, 0, 0, 0, 0, 0, 0, 0⟩ := by
    rw [pressure_drop_pipe, if_neg (by norm_num), if_neg (by norm_num)]
    simp only [hv, if_neg (not_le.mpr hA), gt_iff_lt, lt_self_iff_false, if_false]
    norm_num [pa_to_psi]
  exact ⟨hok, by rw [hok]; exact fun h => Except.noConfusion h⟩

/-- C5 amended: the checks `Q < 0`, `d ≤ 0`, `L < 0` are performed eagerly at
entry of `pressure_drop_pipe` and fail with `invalidArgument` regardless of the
other arguments; non-positive viscosity also fails with `invalidArgument`, but
only when `Q > 0` (the check sits inside `reynolds_number`, which the `Q = 0`
shortcut skips). -/
theorem pressure_drop_pipe_entry_checks (rho mu Q d L k : ℝ) (fittings : List String) :
    ((Q < 0 ∨ d ≤ 0 ∨ L < 0) →
      pressure_drop_pipe rho mu Q d L k fittings = .error .invalidArgument) ∧
    (mu ≤ 0 → 0 < Q → 0 < d → 0 ≤ L →
      pressure_drop_pipe rho mu Q d L k fittings = .error .invalidArgument) := by
  constructor
  · intro h
    rcases h with h | h
    · rw [pressure_drop_pipe, if_pos h]
    · rcases lt_or_ge Q 0 with hQ | hQ
      · rw [pressure_drop_pipe, if_pos hQ]
      · rw [pressure_drop_pipe, if_neg (not_lt.mpr hQ), if_pos h]
  · intro hmu hQ hd hL
    have hA : 0 < Real.pi * (d / 2.0) ^ 2 := by positivity
    have h2 : ¬ (d ≤ 0 ∨ L < 0) := by push_neg; exact ⟨hd, hL⟩
    have hvpos : 0 < Q / (Real.pi * (d / 2.0) ^ 2) := div_pos hQ hA
    rw [pressure_drop_pipe, if_neg (not_lt.mpr (le_of_lt hQ)), if_neg h2]
    simp only [if_neg (not_le.mpr hA), gt_iff_lt, hvpos, if_true, reynolds_number,
      if_pos (Or.inl hmu)]

/-- Witness for C5 amended, at concrete inputs: a negative flow, a
non-positive diameter, a negative length, and a non-positive viscosity with
positive flow each fail with `invalidArgument`. -/
theorem pressure_drop_pipe_entry_checks_witness :
    pressure_drop_pipe 1050 0.002 (-1) 0.01905 10 1.5e-6 [] = .error .invalidArgument ∧
    pressure_drop_pipe 1050 0.002 1 0 10 1.5e-6 [] = .error .invalidArgument ∧
    pressure_drop_pipe 1050 0.002 1 0.01905 (-2) 1.5e-6 [] = .error .invalidArgument ∧
    pressure_drop_pipe 1050 0 1 0.01905 10 1.5e-6 [] = .error .invalidArgument :=
  ⟨(pressure_drop_pipe_entry_checks 1050 0.002 (-1) 0.01905 10 1.5e-6 []).1
      (Or.inl (by norm_num)),
   (pressure_drop_pipe_entry_checks 1050 0.002 1 0 10 1.5e-6 []).1
      (Or.inr (Or.inl (by norm_num))),
   (pressure_drop_pipe_entry_checks 1050 0.002 1 0.01905 (-2) 1.5e-6 []).1
      (Or.inr (Or.inr (by norm_num))),
   (pressure_drop_pipe_entry_checks 1050 0 1 0.01905 10 1.5e-6 []).2
      (by norm_num) (by norm_num) (by norm_num) (by norm_num)⟩

/-- Counterexample to C2 as stated: at `pump_deltaP_pa = 0` the function
returns the bare float `0.0` (`return 0.0` in the source), not a structured
`FlowEstimateResult` with zero fields; no `FlowEstimateResult` is produced at
all. -/
theorem flow_zero_pressure_returns_bare_scalar :
    flow_from_pump_pressure 1050 0.002 0.01905 10 0 1.5e-6 [] 1e-6 100 = .ok (.scalar 0.0) ∧
    ∀ r : FlowEstimateResult,
      flow_from_pump_pressure 1050 0.002 0.01905 10 0 1.5e-6 [] 1e-6 100 ≠
        .ok (.result r) := by
  have h : flow_from_pump_pressure 1050 0.002 0.01905 10 0 1.5e-6 [] 1e-6 100 =
      .ok (.scalar 0.0) := by
    rw [flow_from_pump_pressure, if_pos (by norm_num)]
  refine ⟨h, fun r hr => ?_⟩
  rw [h] at hr
  simp at hr

/-- C2 amended: for every `pump_deltaP_pa ≤ 0` (any fluid, geometry,
fittings, tolerance, iteration budget), `flow_from_pump_pressure` returns
immediately with zero flow — the bare scalar `0.0`, not a full
`FlowEstimateResult` — and raises no error. -/
theorem flow_nonpositive_pressure_scalar_zero (rho mu d L pump_deltaP_pa k tol : ℝ)
    (fittings : List String) (maxiter : ℕ) (h : pump_deltaP_pa ≤ 0) :
    flow_from_pump_pressure rho mu d L pump_deltaP_pa k fittings tol maxiter =
      .ok (.scalar 0.0) := by
  rw [flow_from_pump_pressure, if_pos h]

/-- Witness for C2 amended at a concrete negative pump pressure. -/
theorem flow_nonpositive_pressure_scalar_zero_witness :
    flow_from_pump_pressure 1050 0.002 0.01905 10 (-5) 1.5e-6 ["globe_valve"] 1e-6 100 =
      .ok (.scalar 0.0) :=
  flow_nonpositive_pressure_scalar_zero 1050 0.002 0.01905 10 (-5) 1.5e-6 1e-6
    ["globe_valve"] 100 (by norm_num)

/-- Counterexample to C4 as stated: an input (negative length, one globe
valve) whose energy-balance denominator `rho * (f * (L/d) + K_total)` is
negative already at the solver's initial friction guess `f = 0.02`, yet the
call fails with `invalidArgument` (the `ValueError` of `math.sqrt` on a
negative argument at the seed computation), not with `numericalError`
(`RuntimeError`): the `NumericalError` policy only covers denominators that
turn non-positive inside the iteration loop. -/
theorem flow_seed_denominator_value_error :
    (1:ℝ) * (0.02 * ((-1000) / 1) + 10) < 0 ∧
    flow_from_pump_pressure 1 1 1 (-1000) 1 1.5e-6 ["globe_valve"] 1e-6 100 =
      .error .invalidArgument ∧
    Err.invalidArgument ≠ Err.numericalError := by
  have hfit : (if (["globe_valve"] : List String) = [] then (Except.ok 0.0 : Except Err ℝ)
      else minor_loss_coeffs ["globe_valve"]) = .ok 10.0 := by
    simp [minor_loss_coeffs, minorLossGo, STANDARD_FITTING_K, List.lookup]
    norm_num
  refine ⟨by norm_num, ?_, fun h => Err.noConfusion h⟩
  rw [flow_from_pump_pressure, if_neg (by norm_num)]
  simp only [hfit]
  rw [if_neg (by norm_num : ¬ ((1:ℝ) = 0)),
    if_neg (by norm_num : ¬ ((1:ℝ) * (0.02 * ((-1000:ℝ) / 1) + 10.0) = 0)),
    if_pos (by norm_num : ((2:ℝ) * 1) / ((1:ℝ) * (0.02 * ((-1000:ℝ) / 1) + 10.0)) < 0)]

theorem flowLoop_error_of_nonconvRun (rho mu d L k K_total pump_deltaP_pa tol A : ℝ) :
    ∀ (n : ℕ) (v vn : ℝ), nonconvRun rho mu d L k K_total pump_deltaP_pa tol n v vn →
      flowStep rho mu d L k K_total pump_deltaP_pa tol vn = .fail .numericalError →
      ∀ (m : ℕ) (Q : ℝ), n < m →
        flowLoop rho mu d L k K_total pump_deltaP_pa tol A m v Q =
          .error .numericalError := by
  intro n
  induction n with
  | zero =>
    intro v vn h hfail m Q hm
    obtain ⟨m', rfl⟩ : ∃ m', m = m' + 1 := ⟨m - 1, (Nat.succ_pred_eq_of_pos hm).symm⟩
    rw [show v = vn from h]
    simp only [flowLoop, hfail]
  | succ p ih =>
    intro v vn h hfail m Q hm
    obtain ⟨w, hstep, hrun⟩ := h
    obtain ⟨m', rfl⟩ : ∃ m', m = m' + 1 :=
      ⟨m - 1, (Nat.succ_pred_eq_of_pos (by omega)).symm⟩
    simp only [flowLoop, hstep]
    exact ih w vn hrun hfail m' (A * w) (by omega)

/-- C4 amended: if the energy-balance denominator `rho * (f * (L/d) + K_total)`
computed at any pass of the iteration loop — the first or any later one — is
non-positive, the call fails with `numericalError` (the source's
`RuntimeError`).  But when the *seed* denominator
`rho * (0.02 * (L/d) + K_total)` is already non-positive the call fails before
the loop is ever entered, with a different error: `invalidArgument` (the
`ValueError` of `math.sqrt` on a negative argument) when it is negative, and
`zeroDivision` when it is exactly zero.  In no case is `NaN` or a silently
wrong result returned.  Part one reaches pass `n + 1` through `nonconvRun`
(`n` completed passes, none erroring or breaking), so it covers a denominator
that first turns non-positive at an arbitrary iteration. -/
theorem flow_denominator_failure_modes :
    (∀ (rho mu d L pump_deltaP_pa k tol : ℝ) (fittings : List String)
      (maxiter n : ℕ) (K_total vn Ren fn : ℝ),
      0 < pump_deltaP_pa →
      (if fittings = [] then (Except.ok 0.0 : Except Err ℝ)
        else minor_loss_coeffs fittings) = .ok K_total →
      d ≠ 0 →
      0 < rho * (0.02 * (L / d) + K_total) →
      nonconvRun rho mu d L k K_total pump_deltaP_pa tol n
        (Real.sqrt ((2 * pump_deltaP_pa) / (rho * (0.02 * (L / d) + K_total)))) vn →
      reynolds_number rho mu vn d = .ok Ren →
      (if vn > 0 then friction_factor_haland d k Ren
        else (Except.ok 0.0 : Except Err ℝ)) = .ok fn →
      rho * (fn * (L / d) + K_total) / 2.0 ≤ 0 →
      n < maxiter →
      flow_from_pump_pressure rho mu d L pump_deltaP_pa k fittings tol maxiter =
        .error .numericalError) ∧
    (∀ (rho mu d L pump_deltaP_pa k tol : ℝ) (fittings : List String)
      (maxiter : ℕ) (K_total : ℝ),
      0 < pump_deltaP_pa →
      (if fittings = [] then (Except.ok 0.0 : Except Err ℝ)
        else minor_loss_coeffs fittings) = .ok K_total →
      d ≠ 0 →
      rho * (0.02 * (L / d) + K_total) < 0 →
      flow_from_pump_pressure rho mu d L pump_deltaP_pa k fittings tol maxiter =
        .error .invalidArgument) ∧
    (∀ (rho mu d L pump_deltaP_pa k tol : ℝ) (fittings : List String)
      (maxiter : ℕ) (K_total : ℝ),
      0 < pump_deltaP_pa →
      (if fittings = [] then (Except.ok 0.0 : Except Err ℝ)
        else minor_loss_coeffs fittings) = .ok K_total →
      d ≠ 0 →
      rho * (0.02 * (L / d) + K_total) = 0 →
      flow_from_pump_pressure rho mu d L pump_deltaP_pa k fittings tol maxiter =
        .error .zeroDivision) := by
  refine ⟨?_, ?_, ?_⟩
  · intro rho mu d L pump_deltaP_pa k tol fittings maxiter n K_total vn Ren fn
      hp hfit hd hD hrun hRe hf hden hiter
    have harg : 0 < (2 * pump_deltaP_pa) / (rho * (0.02 * (L / d) + K_total)) :=
      div_pos (by linarith) hD
    have hfail : flowStep rho mu d L k K_total pump_deltaP_pa tol vn =
        .fail .numericalError := by
      rw [flowStep, hRe]
      simp only [hf]
      rw [if_pos hden]
    have hloop := flowLoop_error_of_nonconvRun rho mu d L k K_total pump_deltaP_pa tol
      (Real.pi * (d / 2.0) ^ 2) n
      (Real.sqrt ((2 * pump_deltaP_pa) / (rho * (0.02 * (L / d) + K_total)))) vn hrun hfail
      maxiter (Real.pi * (d / 2.0) ^ 2 *
        Real.sqrt ((2 * pump_deltaP_pa) / (rho * (0.02 * (L / d) + K_total)))) hiter
    rw [flow_from_pump_pressure, if_neg (not_le.mpr hp)]
    simp only [hfit]
    rw [if_neg hd, if_neg (ne_of_gt hD), if_neg (not_lt.mpr (le_of_lt harg))]
    simp only [hloop]
  · intro rho mu d L pump_deltaP_pa k tol fittings maxiter K_total hp hfit hd hD
    rw [flow_from_pump_pressure, if_neg (not_le.mpr hp)]
    simp only [hfit]
    rw [if_neg hd, if_neg (ne_of_lt hD),
      if_pos (div_neg_of_pos_of_neg (by linarith) hD)]
  · intro rho mu d L pump_deltaP_pa k tol fittings maxiter K_total hp hfit hd hD
    rw [flow_from_pump_pressure, if_neg (not_le.mpr hp)]
    simp only [hfit]
    rw [if_neg hd, if_pos hD]

/-- Witness for C4 amended, one instance per failure mode.  First: `rho = 1`,
`mu = 1/69000`, `d = 1`, `k = 0`, `L = -6477408/12955`, `pump = 23/323875`,
one globe valve — the seed denominator `46/323875` is positive, the seed
velocity is exactly `1`, pass one is turbulent (`Re = 69000`,
Haaland term `= 1/10000`, `f = 25/1296`) with positive denominator
`460/2591` and produces `v = 1/50` without converging, and only pass two
(laminar, `Re = 1380`, `f = 16/345`) turns the denominator negative, so the
failure first occurs after a completed pass and the call raises
`numericalError`.  Second: `L = -2000` makes the seed denominator `-30 < 0`,
failing with `invalidArgument` before the loop.  Third: `L = -500` makes it
exactly `0`, failing with `zeroDivision`. -/
theorem flow_denominator_failure_modes_witness :
    flow_from_pump_pressure 1 (1/69000) 1 (-6477408/12955) (23/323875) 0 ["globe_valve"]
      1e-6 100 = .error .numericalError ∧
    flow_from_pump_pressure 1 1 1 (-2000) 5 1.5e-6 ["globe_valve"] 1e-6 100 =
      .error .invalidArgument ∧
    flow_from_pump_pressure 1 1 1 (-500) 5 1.5e-6 ["globe_valve"] 1e-6 100 =
      .error .zeroDivision := by
  have hfit : (if (["globe_valve"] : List String) = [] then (Except.ok 0.0 : Except Err ℝ)
      else minor_loss_coeffs ["globe_valve"]) = .ok 10.0 := by
    simp [minor_loss_coeffs, minorLossGo, STANDARD_FITTING_K, List.lookup]
    norm_num
  have hre1 : reynolds_number 1 (1/69000) 1 1 = .ok 69000 := by
    rw [reynolds_number, if_neg (by norm_num)]
    norm_num
  have hterm : ((0:ℝ) / (3.7 * 1)) ^ (1.11 : ℝ) + 6.9 / 69000 = 1/10000 := by
    rw [show ((0:ℝ) / (3.7 * 1)) = 0 by norm_num,
      Real.zero_rpow (by norm_num : (1.11:ℝ) ≠ 0)]
    norm_num
  have hlogb : Real.logb 10 (1/10000 : ℝ) = -4 := by
    rw [show (1/10000 : ℝ) = (10:ℝ) ^ (-4 : ℤ) by norm_num, Real.logb, Real.log_zpow,
      mul_div_assoc, div_self (ne_of_gt (Real.log_pos (by norm_num)))]
    norm_num
  have hf1 : friction_factor_haland 1 0 69000 = .ok (25/1296) := by
    rw [friction_factor_haland, if_neg (by norm_num : ¬((69000:ℝ) ≤ 0)),
      if_neg (by norm_num : ¬((69000:ℝ) < 2300)), if_neg (by norm_num : ¬((1:ℝ) = 0)),
      if_neg (by norm_num : ¬((0:ℝ) / (3.7 * 1) < 0))]
    simp only []
    rw [hterm, hlogb, if_neg (by norm_num : ¬((1/10000 : ℝ) ≤ 0)),
      if_neg (by norm_num : ¬(-1.8 * (-4 : ℝ) = 0))]
    norm_num
  have hstep1 : flowStep 1 (1/69000) 1 (-6477408/12955) 0 10.0 (23/323875) 1e-6 1 =
      .next (1/50) := by
    rw [flowStep, hre1]
    simp only [if_pos (by norm_num : (1:ℝ) > 0), hf1]
    rw [if_neg (by norm_num), if_neg (by norm_num)]
    have hsq : (23/323875 : ℝ) /
        (1 * (25/1296 * ((-6477408/12955) / 1) + 10.0) / 2.0) = ((1:ℝ)/50) ^ 2 := by
      norm_num
    rw [hsq, Real.sqrt_sq (by norm_num : (0:ℝ) ≤ 1/50)]
    rw [if_neg (by simp only [abs_sub_lt_iff]; norm_num)]
  have hv0 : Real.sqrt ((2 * (23/323875 : ℝ)) /
      (1 * (0.02 * ((-6477408/12955) / 1) + 10.0))) = 1 := by
    rw [show (2 * (23/323875 : ℝ)) / (1 * (0.02 * ((-6477408/12955) / 1) + 10.0)) = 1 by
      norm_num]
    exact Real.sqrt_one
  have hrun : nonconvRun 1 (1/69000) 1 (-6477408/12955) 0 10.0 (23/323875) 1e-6 1
      (Real.sqrt ((2 * (23/323875 : ℝ)) /
        (1 * (0.02 * ((-6477408/12955) / 1) + 10.0)))) (1/50) := by
    rw [hv0]
    exact ⟨1/50, hstep1, rfl⟩
  have hre2 : reynolds_number 1 (1/69000) (1/50) 1 = .ok 1380 := by
    rw [reynolds_number, if_neg (by norm_num)]
    norm_num
  have hf2 : (if (1/50 : ℝ) > 0 then friction_factor_haland 1 0 1380
      else (Except.ok 0.0 : Except Err ℝ)) = .ok (16/345) := by
    rw [if_pos (by norm_num : (1/50 : ℝ) > 0), friction_factor_haland,
      if_neg (by norm_num : ¬((1380:ℝ) ≤ 0)), if_pos (by norm_num : (1380:ℝ) < 2300)]
    norm_num
  refine ⟨?_, ?_, ?_⟩
  · exact flow_denominator_failure_modes.1 1 (1/69000) 1 (-6477408/12955) (23/323875) 0
      1e-6 ["globe_valve"] 100 1 10.0 (1/50) 1380 (16/345) (by norm_num) hfit
      (by norm_num) (by norm_num) hrun hre2 hf2 (by norm_num) (by norm_num)
  · exact flow_denominator_failure_modes.2.1 1 1 1 (-2000) 5 1.5e-6 1e-6 ["globe_valve"]
      100 10.0 (by norm_num) hfit (by norm_num) (by norm_num)
  · exact flow_denominator_failure_modes.2.2 1 1 1 (-500) 5 1.5e-6 1e-6 ["globe_valve"]
      100 10.0 (by norm_num) hfit (by norm_num) (by norm_num)

theorem flowLoop_of_nonconvRun (rho mu d L k K_total pump_deltaP_pa tol A : ℝ) :
    ∀ (n : ℕ) (v vf : ℝ), nonconvRun rho mu d L k K_total pump_deltaP_pa tol n v vf →
      flowLoop rho mu d L k K_total pump_deltaP_pa tol A n v (A * v) = .ok (vf, A * vf) := by
  intro n
  induction n with
  | zero => intro v vf h; rw [show v = vf from h]; rfl
  | succ m ih =>
    intro v vf h
    obtain ⟨w, hstep, hrun⟩ := h
    simp only [flowLoop, hstep]
    exact ih w vf hrun

/-- C3: if the inverse solver exhausts its iteration budget with every pass
failing the tolerance test (`nonconvRun`), `flow_from_pump_pressure`
terminates normally and returns the last computed estimate as an ordinary
`FlowEstimateResult` — the same shape as a converged run, with no field
recording that the tolerance was not met (the structure has only `Q_m3s`,
`Q_lpm`, `velocity_m_s`, `Re`, `friction_factor`) — and raises no error. -/
theorem flow_exhaustion_returns_last_estimate
    (rho mu d L pump_deltaP_pa k tol : ℝ) (fittings : List String) (maxiter : ℕ)
    (K_total vf Rf ff : ℝ)
    (hp : 0 < pump_deltaP_pa)
    (hfit : (if fittings = [] then (Except.ok 0.0 : Except Err ℝ)
        else minor_loss_coeffs fittings) = .ok K_total)
    (hd : d ≠ 0)
    (hD : 0 < rho * (0.02 * (L / d) + K_total))
    (hrun : nonconvRun rho mu d L k K_total pump_deltaP_pa tol maxiter
        (Real.sqrt ((2 * pump_deltaP_pa) / (rho * (0.02 * (L / d) + K_total)))) vf)
    (hvf : 0 < vf)
    (hRe : reynolds_number rho mu vf d = .ok Rf)
    (hff : friction_factor_haland d k Rf = .ok ff) :
    flow_from_pump_pressure rho mu d L pump_deltaP_pa k fittings tol maxiter =
      .ok (.result ⟨Real.pi * (d / 2.0) ^ 2 * vf,
          m3s_to_lpm (Real.pi * (d / 2.0) ^ 2 * vf), vf, Rf, ff⟩) := by
  have harg : 0 < (2 * pump_deltaP_pa) / (rho * (0.02 * (L / d) + K_total)) :=
    div_pos (by linarith) hD
  rw [flow_from_pump_pressure, if_neg (not_le.mpr hp)]
  simp only [hfit]
  rw [if_neg hd, if_neg (ne_of_gt hD), if_neg (not_lt.mpr (le_of_lt harg))]
  rw [flowLoop_of_nonconvRun rho mu d L k K_total pump_deltaP_pa tol
    (Real.pi * (d / 2.0) ^ 2) maxiter _ vf hrun]
  simp only [if_pos hvf, hRe, Except.bind, hff]

/-- Witness for C3: with `rho = 1`, `mu = 950001/2592`, `d = 1`,
`L = 1/10000`, `pump = 5000001/1000000`, one globe valve and an iteration
budget of 1, the seed velocity is exactly 1, the single pass produces
`v_new = 0.9` (laminar regime, engineered so the square root is rational),
the tolerance `1e-6` is missed (`|0.9 - 1| = 0.1`), the budget is exhausted,
and the call still returns a normal result built from the last estimate. -/
theorem flow_exhaustion_returns_last_estimate_witness :
    flow_from_pump_pressure 1 (950001/2592) 1 (1/10000) (5000001/1000000) 1.5e-6
      ["globe_valve"] 1e-6 1 =
      .ok (.result ⟨Real.pi * ((1:ℝ) / 2.0) ^ 2 * (9/10),
          m3s_to_lpm (Real.pi * ((1:ℝ) / 2.0) ^ 2 * (9/10)), 9/10,
          3888/1583335, 6333340/243⟩) := by
  have hfit : (if (["globe_valve"] : List String) = [] then (Except.ok 0.0 : Except Err ℝ)
      else minor_loss_coeffs ["globe_valve"]) = .ok 10.0 := by
    simp [minor_loss_coeffs, minorLossGo, STANDARD_FITTING_K, List.lookup]
    norm_num
  have hre1 : reynolds_number 1 (950001/2592) 1 1 = .ok (2592/950001) := by
    rw [reynolds_number, if_neg (by norm_num)]
    norm_num
  have hf1 : friction_factor_haland 1 1.5e-6 (2592/950001) = .ok (1900002/81) := by
    rw [friction_factor_haland, if_neg (by norm_num), if_pos (by norm_num)]
    norm_num
  have hstep : flowStep 1 (950001/2592) 1 (1/10000) 1.5e-6 10.0 (5000001/1000000) 1e-6 1 =
      .next (9/10) := by
    rw [flowStep, hre1]
    simp only [if_pos (by norm_num : (1:ℝ) > 0), hf1]
    rw [if_neg (by norm_num), if_neg (by norm_num)]
    have hsq : (5000001/1000000 : ℝ) /
        (1 * ((1900002/81) * ((1/10000) / 1) + 10.0) / 2.0) = ((9:ℝ)/10) ^ 2 := by
      norm_num
    rw [hsq, Real.sqrt_sq (by norm_num : (0:ℝ) ≤ 9/10)]
    rw [if_neg (by simp only [abs_sub_lt_iff]; norm_num)]
  have hv0 : Real.sqrt ((2 * (5000001/1000000 : ℝ)) /
      (1 * (0.02 * ((1/10000) / 1) + 10.0))) = 1 := by
    rw [show (2 * (5000001/1000000 : ℝ)) / (1 * (0.02 * ((1/10000) / 1) + 10.0)) = 1 by
      norm_num]
    exact Real.sqrt_one
  have hrun : nonconvRun 1 (950001/2592) 1 (1/10000) 1.5e-6 10.0 (5000001/1000000) 1e-6 1
      (Real.sqrt ((2 * (5000001/1000000 : ℝ)) /
        (1 * (0.02 * ((1/10000) / 1) + 10.0)))) (9/10) := by
    rw [hv0]
    exact ⟨9/10, hstep, rfl⟩
  have hRe : reynolds_number 1 (950001/2592) (9/10) 1 = .ok (3888/1583335) := by
    rw [reynolds_number, if_neg (by norm_num)]
    norm_num
  have hff : friction_factor_haland 1 1.5e-6 (3888/1583335) = .ok (6333340/243) := by
    rw [friction_factor_haland, if_neg (by norm_num), if_pos (by norm_num)]
    norm_num
  exact flow_exhaustion_returns_last_estimate 1 (950001/2592) 1 (1/10000)
    (5000001/1000000) 1.5e-6 1e-6 ["globe_valve"] 1 10.0 (9/10) (3888/1583335)
    (6333340/243) (by norm_num) hfit (by norm_num) (by norm_num) hrun (by norm_num)
    hRe hff

/-- C1 is violated by the code on the convergence path: a concrete run (seed
velocity exactly 1, engineered so the very first pass converges to
`v_new = 0.9999999` with `|v_new - v| = 1e-7 < tol`) in which the returned
snapshot has `velocity_m_s = 0.9999999` while `Q_m3s = A * 1`: the `break`
path updates `v` to `v_new` but skips the `Q = A * v` refresh, so
`Q_m3s ≠ A * velocity_m_s` even though `Re` and `friction_factor` are
recomputed from the final velocity.  (On the exhaustion path `Q` is
consistent; see the C3 theorem.) -/
theorem flow_convergence_returns_stale_Q :
    flow_from_pump_pressure 1 (41666665625/66666653333334) 1 (1/10000)
      (5000001/1000000) 1.5e-6 ["globe_valve"] 1e-6 100 =
      .ok (.result ⟨Real.pi * ((1:ℝ) / 2.0) ^ 2 * 1,
          m3s_to_lpm (Real.pi * ((1:ℝ) / 2.0) ^ 2 * 1), 9999999/10000000,
          333333233333343333333/208333328125000000,
          13333333000000000000/333333233333343333333⟩) ∧
    Real.pi * ((1:ℝ) / 2.0) ^ 2 * 1 ≠
      Real.pi * ((1:ℝ) / 2.0) ^ 2 * (9999999/10000000) := by
  have hfit : (if (["globe_valve"] : List String) = [] then (Except.ok 0.0 : Except Err ℝ)
      else minor_loss_coeffs ["globe_valve"]) = .ok 10.0 := by
    simp [minor_loss_coeffs, minorLossGo, STANDARD_FITTING_K, List.lookup]
    norm_num
  have hre1 : reynolds_number 1 (41666665625/66666653333334) 1 1 =
      .ok (66666653333334/41666665625) := by
    rw [reynolds_number, if_neg (by norm_num)]
    norm_num
  have hf1 : friction_factor_haland 1 1.5e-6 (66666653333334/41666665625) =
      .ok (1333333300000/33333326666667) := by
    rw [friction_factor_haland, if_neg (by norm_num), if_pos (by norm_num)]
    norm_num
  have hstep : flowStep 1 (41666665625/66666653333334) 1 (1/10000) 1.5e-6 10.0
      (5000001/1000000) 1e-6 1 = .brk (9999999/10000000) := by
    rw [flowStep, hre1]
    simp only [if_pos (by norm_num : (1:ℝ) > 0), hf1]
    rw [if_neg (by norm_num), if_neg (by norm_num)]
    have hsq : (5000001/1000000 : ℝ) /
        (1 * ((1333333300000/33333326666667) * ((1/10000) / 1) + 10.0) / 2.0) =
        ((9999999:ℝ)/10000000) ^ 2 := by
      norm_num
    rw [hsq, Real.sqrt_sq (by norm_num : (0:ℝ) ≤ 9999999/10000000)]
    rw [if_pos (by simp only [abs_sub_lt_iff]; norm_num)]
  have hv0 : Real.sqrt ((2 * (5000001/1000000 : ℝ)) /
      (1 * (0.02 * ((1/10000) / 1) + 10.0))) = 1 := by
    rw [show (2 * (5000001/1000000 : ℝ)) / (1 * (0.02 * ((1/10000) / 1) + 10.0)) = 1 by
      norm_num]
    exact Real.sqrt_one
  have hRe : reynolds_number 1 (41666665625/66666653333334) (9999999/10000000) 1 =
      .ok (333333233333343333333/208333328125000000) := by
    rw [reynolds_number, if_neg (by norm_num)]
    norm_num
  have hff : friction_factor_haland 1 1.5e-6 (333333233333343333333/208333328125000000) =
      .ok (13333333000000000000/333333233333343333333) := by
    rw [friction_factor_haland, if_neg (by norm_num), if_pos (by norm_num)]
    norm_num
  constructor
  · rw [flow_from_pump_pressure, if_neg (by norm_num)]
    simp only [hfit]
    rw [if_neg (by norm_num : ¬ ((1:ℝ) = 0)),
      if_neg (by norm_num : ¬ ((1:ℝ) * (0.02 * ((1/10000:ℝ) / 1) + 10.0) = 0)),
      if_neg (by norm_num :
        ¬ ((2 * (5000001/1000000 : ℝ)) / (1 * (0.02 * ((1/10000:ℝ) / 1) + 10.0)) < 0))]
    simp only [hv0]
    rw [show (100:ℕ) = 99 + 1 from rfl]
    simp only [flowLoop, hstep]
    simp only [if_pos (by norm_num : (9999999/10000000:ℝ) > 0), hRe, Except.bind, hff]
  · intro h
    have h2 := mul_left_cancel₀
      (ne_of_gt (by positivity : (0:ℝ) < Real.pi * ((1:ℝ) / 2.0) ^ 2)) h
    norm_num at h2

/-! ### Verified numeric bounds for the round-trip claim.
`logb 10` of a rational is bracketed through rational power inequalities:
`logb 10 t ≤ -(p/q)` iff `t^q * 10^p ≤ 1`, so every logarithm bound below
reduces to exact rational arithmetic; the lone `rpow` is handled the same way
through 100th/111th powers, and `π` through Mathlib's decimal bounds. -/

theorem logb_ten_le_of_pow (t : ℝ) (p q : ℕ) (hq : 0 < q) (ht : 0 < t)
    (h : t ^ q * 10 ^ p ≤ 1) : Real.logb 10 t ≤ -((p : ℝ) / (q : ℝ)) := by
  have hlog10 : (0:ℝ) < Real.log 10 := Real.log_pos (by norm_num)
  have hpow : Real.log (t ^ q * 10 ^ p) ≤ 0 := by
    have := Real.log_le_log (by positivity) h
    simpa using this
  rw [Real.log_mul (by positivity) (by positivity), Real.log_pow, Real.log_pow] at hpow
  have hq' : (0:ℝ) < (q:ℝ) := by exact_mod_cast hq
  rw [Real.logb, div_le_iff hlog10,
    show -((p:ℝ) / (q:ℝ)) * Real.log 10 = (-((p:ℝ) * Real.log 10)) / (q:ℝ) by ring,
    le_div_iff hq']
  linarith [hpow]

theorem le_logb_ten_of_pow (t : ℝ) (p q : ℕ) (hq : 0 < q) (ht : 0 < t)
    (h : 1 ≤ t ^ q * 10 ^ p) : -((p : ℝ) / (q : ℝ)) ≤ Real.logb 10 t := by
  have hlog10 : (0:ℝ) < Real.log 10 := Real.log_pos (by norm_num)
  have hpow : 0 ≤ Real.log (t ^ q * 10 ^ p) := by
    have := Real.log_le_log (by norm_num) h
    simpa using this
  rw [Real.log_mul (by positivity) (by positivity), Real.log_pow, Real.log_pow] at hpow
  have hq' : (0:ℝ) < (q:ℝ) := by exact_mod_cast hq
  rw [Real.logb, le_div_iff hlog10,
    show -((p:ℝ) / (q:ℝ)) * Real.log 10 = (-((p:ℝ) * Real.log 10)) / (q:ℝ) by ring,
    div_le_iff hq']
  linarith [hpow]

theorem rpow_le_of_pow_le (x q : ℝ) (hx : 0 ≤ x) (hq : 0 ≤ q)
    (h : x ^ (111 : ℕ) ≤ q ^ (100 : ℕ)) : x ^ ((1.11 : ℝ)) ≤ q := by
  have h1 : x ^ ((1.11 : ℝ)) = x ^ ((111 : ℝ)/100) := by norm_num
  have h2 : (x ^ ((111 : ℝ)/100)) ^ (100 : ℕ) = x ^ (111 : ℕ) := by
    rw [← Real.rpow_natCast (x ^ ((111:ℝ)/100)) 100, ← Real.rpow_mul hx,
      ← Real.rpow_natCast x 111]
    norm_num
  have h3 : (x ^ ((111 : ℝ)/100)) ^ (100 : ℕ) ≤ q ^ (100 : ℕ) := by rw [h2]; exact h
  rw [h1]
  exact le_of_pow_le_pow_left (by norm_num) hq h3

theorem le_rpow_of_le_pow (x q : ℝ) (hx : 0 ≤ x) (hq : 0 ≤ q)
    (h : q ^ (100 : ℕ) ≤ x ^ (111 : ℕ)) : q ≤ x ^ ((1.11 : ℝ)) := by
  have h1 : x ^ ((1.11 : ℝ)) = x ^ ((111 : ℝ)/100) := by norm_num
  have h2 : (x ^ ((111 : ℝ)/100)) ^ (100 : ℕ) = x ^ (111 : ℕ) := by
    rw [← Real.rpow_natCast (x ^ ((111:ℝ)/100)) 100, ← Real.rpow_mul hx,
      ← Real.rpow_natCast x 111]
    norm_num
  have h3 : q ^ (100 : ℕ) ≤ (x ^ ((111 : ℝ)/100)) ^ (100 : ℕ) := by rw [h2]; exact h
  rw [h1]
  exact le_of_pow_le_pow_left (by norm_num) (Real.rpow_nonneg hx _) h3

theorem neg_logb_pos (t : ℝ) (h0 : 0 < t) (h1 : t < 1) : 0 < -1.8 * Real.logb 10 t := by
  have := Real.logb_neg (by norm_num : (1:ℝ) < 10) h0 h1
  nlinarith

theorem haalandF_pos (t : ℝ) (h0 : 0 < t) (h1 : t < 1) : 0 < haalandF t := by
  have hy := neg_logb_pos t h0 h1
  rw [haalandF]
  positivity

theorem haalandF_mono (t1 t2 : ℝ) (h0 : 0 < t1) (h12 : t1 ≤ t2) (h1 : t2 < 1) :
    haalandF t1 ≤ haalandF t2 := by
  have hy2 := neg_logb_pos t2 (lt_of_lt_of_le h0 h12) h1
  have hy1 := neg_logb_pos t1 h0 (lt_of_le_of_lt h12 h1)
  have hlb : Real.logb 10 t1 ≤ Real.logb 10 t2 :=
    Real.logb_le_logb_of_le (by norm_num : (1:ℝ) < 10) h0 h12
  have hyy : -1.8 * Real.logb 10 t2 ≤ -1.8 * Real.logb 10 t1 := by nlinarith
  rw [haalandF, haalandF, zpow_neg, zpow_neg]
  apply inv_le_inv_of_le (by positivity)
  rw [show ((2:ℤ)) = ((2:ℕ):ℤ) by rfl, zpow_natCast, zpow_natCast]
  exact pow_le_pow_left (le_of_lt hy2) hyy 2

theorem haalandF_le_of_logb (t a : ℝ) (ha : 0 < a) (h : Real.logb 10 t ≤ -a) :
    haalandF t ≤ (1.8 * a) ^ (-2 : ℤ) := by
  have hy : 1.8 * a ≤ -1.8 * Real.logb 10 t := by nlinarith
  rw [haalandF, zpow_neg, zpow_neg]
  apply inv_le_inv_of_le (by positivity)
  rw [show ((2:ℤ)) = ((2:ℕ):ℤ) by rfl, zpow_natCast, zpow_natCast]
  exact pow_le_pow_left (by positivity) hy 2

theorem le_haalandF_of_logb (t a : ℝ) (h0 : 0 < t) (h1 : t < 1) (h : -a ≤ Real.logb 10 t) :
    (1.8 * a) ^ (-2 : ℤ) ≤ haalandF t := by
  have hy0 := neg_logb_pos t h0 h1
  have hy : -1.8 * Real.logb 10 t ≤ 1.8 * a := by nlinarith
  rw [haalandF, zpow_neg, zpow_neg]
  apply inv_le_inv_of_le (by positivity)
  rw [show ((2:ℤ)) = ((2:ℕ):ℤ) by rfl, zpow_natCast, zpow_natCast]
  exact pow_le_pow_left (le_of_lt hy0) hy 2

theorem rt_c_le : ((1.5e-6 : ℝ) / (3.7 * 0.01905)) ^ ((1.11:ℝ)) ≤ 6.55e-6 := by
  rw [show ((1.5e-6 : ℝ) / (3.7 * 0.01905)) = 1/46990 by norm_num]
  apply rpow_le_of_pow_le _ _ (by norm_num) (by norm_num)
  norm_num

theorem rt_le_c : (6.48e-6 : ℝ) ≤ ((1.5e-6 : ℝ) / (3.7 * 0.01905)) ^ ((1.11:ℝ)) := by
  rw [show ((1.5e-6 : ℝ) / (3.7 * 0.01905)) = 1/46990 by norm_num]
  apply le_rpow_of_le_pow _ _ (by norm_num) (by norm_num)
  norm_num

theorem rtF_bound_star (v : ℝ) (h1 : 11696 ≤ 10001.25 * v) (h2 : 10001.25 * v ≤ 11697) :
    ((1.8 * ((3225:ℝ)/1000)) ^ (-2 : ℤ) ≤ rtF v) ∧
    (rtF v ≤ (1.8 * ((3224:ℝ)/1000)) ^ (-2 : ℤ)) := by
  have hRpos : (0:ℝ) < 10001.25 * v := by linarith
  have hRe : (1050 * v * 0.01905 / 0.002 : ℝ) = 10001.25 * v := by ring
  have hdivlo : (6.9:ℝ)/11697 ≤ 6.9 / (10001.25 * v) :=
    div_le_div_of_nonneg_left (by norm_num) hRpos h2
  have hdivhi : (6.9:ℝ) / (10001.25 * v) ≤ 6.9/11696 :=
    div_le_div_of_nonneg_left (by norm_num) (by norm_num) h1
  have htlo : (6.48e-6 + 6.9/11697 : ℝ) ≤
      (1.5e-6 / (3.7 * 0.01905) : ℝ) ^ (1.11 : ℝ) + 6.9 / (10001.25 * v) :=
    add_le_add rt_le_c hdivlo
  have hthi : (1.5e-6 / (3.7 * 0.01905) : ℝ) ^ (1.11 : ℝ) + 6.9 / (10001.25 * v) ≤
      (6.55e-6 + 6.9/11696 : ℝ) :=
    add_le_add rt_c_le hdivhi
  have htpos : (0:ℝ) < (1.5e-6 / (3.7 * 0.01905) : ℝ) ^ (1.11 : ℝ) + 6.9 / (10001.25 * v) := by
    have := rt_le_c
    nlinarith
  constructor
  · rw [rtF, hRe]
    calc (1.8 * ((3225:ℝ)/1000)) ^ (-2 : ℤ)
        ≤ haalandF (6.48e-6 + 6.9/11697 : ℝ) := by
          apply le_haalandF_of_logb _ _ (by norm_num) (by norm_num)
          have h := le_logb_ten_of_pow (6.48e-6 + 6.9/11697 : ℝ) 3225 1000
            (by norm_num) (by norm_num) (by norm_num)
          push_cast at h
          convert h using 2
      _ ≤ haalandF ((1.5e-6 / (3.7 * 0.01905) : ℝ) ^ (1.11 : ℝ) + 6.9 / (10001.25 * v)) := by
          apply haalandF_mono _ _ (by norm_num) htlo
          calc (1.5e-6 / (3.7 * 0.01905) : ℝ) ^ (1.11 : ℝ) + 6.9 / (10001.25 * v)
              ≤ (6.55e-6 + 6.9/11696 : ℝ) := hthi
            _ < 1 := by norm_num
  · rw [rtF, hRe]
    calc haalandF ((1.5e-6 / (3.7 * 0.01905) : ℝ) ^ (1.11 : ℝ) + 6.9 / (10001.25 * v))
        ≤ haalandF (6.55e-6 + 6.9/11696 : ℝ) := by
          apply haalandF_mono _ _ htpos hthi (by norm_num)
      _ ≤ (1.8 * ((3224:ℝ)/1000)) ^ (-2 : ℤ) := by
          apply haalandF_le_of_logb _ _ (by norm_num)
          have h := logb_ten_le_of_pow (6.55e-6 + 6.9/11696 : ℝ) 3224 1000
            (by norm_num) (by norm_num) (by norm_num)
          push_cast at h
          convert h using 2

theorem rtF_bound_v0 (v : ℝ) (h1 : 14093.68 ≤ 10001.25 * v) (h2 : 10001.25 * v ≤ 14387.31) :
    ((1.8 * ((3314:ℝ)/1000)) ^ (-2 : ℤ) ≤ rtF v) ∧
    (rtF v ≤ (1.8 * ((3304:ℝ)/1000)) ^ (-2 : ℤ)) := by
  have hRpos : (0:ℝ) < 10001.25 * v := by linarith
  have hRe : (1050 * v * 0.01905 / 0.002 : ℝ) = 10001.25 * v := by ring
  have hdivlo : (6.9:ℝ)/14387.31 ≤ 6.9 / (10001.25 * v) :=
    div_le_div_of_nonneg_left (by norm_num) hRpos h2
  have hdivhi : (6.9:ℝ) / (10001.25 * v) ≤ 6.9/14093.68 :=
    div_le_div_of_nonneg_left (by norm_num) (by norm_num) h1
  have htlo : (6.48e-6 + 6.9/14387.31 : ℝ) ≤
      (1.5e-6 / (3.7 * 0.01905) : ℝ) ^ (1.11 : ℝ) + 6.9 / (10001.25 * v) :=
    add_le_add rt_le_c hdivlo
  have hthi : (1.5e-6 / (3.7 * 0.01905) : ℝ) ^ (1.11 : ℝ) + 6.9 / (10001.25 * v) ≤
      (6.55e-6 + 6.9/14093.68 : ℝ) :=
    add_le_add rt_c_le hdivhi
  have htpos : (0:ℝ) < (1.5e-6 / (3.7 * 0.01905) : ℝ) ^ (1.11 : ℝ) + 6.9 / (10001.25 * v) := by
    have := rt_le_c
    nlinarith
  constructor
  · rw [rtF, hRe]
    calc (1.8 * ((3314:ℝ)/1000)) ^ (-2 : ℤ)
        ≤ haalandF (6.48e-6 + 6.9/14387.31 : ℝ) := by
          apply le_haalandF_of_logb _ _ (by norm_num) (by norm_num)
          have h := le_logb_ten_of_pow (6.48e-6 + 6.9/14387.31 : ℝ) 3314 1000
            (by norm_num) (by norm_num) (by norm_num)
          push_cast at h
          convert h using 2
      _ ≤ haalandF ((1.5e-6 / (3.7 * 0.01905) : ℝ) ^ (1.11 : ℝ) + 6.9 / (10001.25 * v)) := by
          apply haalandF_mono _ _ (by norm_num) htlo
          calc (1.5e-6 / (3.7 * 0.01905) : ℝ) ^ (1.11 : ℝ) + 6.9 / (10001.25 * v)
              ≤ (6.55e-6 + 6.9/14093.68 : ℝ) := hthi
            _ < 1 := by norm_num
  · rw [rtF, hRe]
    calc haalandF ((1.5e-6 / (3.7 * 0.01905) : ℝ) ^ (1.11 : ℝ) + 6.9 / (10001.25 * v))
        ≤ haalandF (6.55e-6 + 6.9/14093.68 : ℝ) := by
          apply haalandF_mono _ _ htpos hthi (by norm_num)
      _ ≤ (1.8 * ((3304:ℝ)/1000)) ^ (-2 : ℤ) := by
          apply haalandF_le_of_logb _ _ (by norm_num)
          have h := logb_ten_le_of_pow (6.55e-6 + 6.9/14093.68 : ℝ) 3304 1000
            (by norm_num) (by norm_num) (by norm_num)
          push_cast at h
          convert h using 2

theorem rtF_bound_tail (v : ℝ) (h1 : 11696 ≤ 10001.25 * v) (h2 : 10001.25 * v ≤ 12106.395) :
    (1.8 * ((3240:ℝ)/1000)) ^ (-2 : ℤ) ≤ rtF v := by
  have hRpos : (0:ℝ) < 10001.25 * v := by linarith
  have hRe : (1050 * v * 0.01905 / 0.002 : ℝ) = 10001.25 * v := by ring
  have hdivlo : (6.9:ℝ)/12106.395 ≤ 6.9 / (10001.25 * v) :=
    div_le_div_of_nonneg_left (by norm_num) hRpos h2
  have htlo : (6.48e-6 + 6.9/12106.395 : ℝ) ≤
      (1.5e-6 / (3.7 * 0.01905) : ℝ) ^ (1.11 : ℝ) + 6.9 / (10001.25 * v) :=
    add_le_add rt_le_c hdivlo
  have hdivhi : (6.9:ℝ) / (10001.25 * v) ≤ 6.9/11696 :=
    div_le_div_of_nonneg_left (by norm_num) (by norm_num) h1
  have hthi : (1.5e-6 / (3.7 * 0.01905) : ℝ) ^ (1.11 : ℝ) + 6.9 / (10001.25 * v) ≤
      (6.55e-6 + 6.9/11696 : ℝ) :=
    add_le_add rt_c_le hdivhi
  rw [rtF, hRe]
  calc (1.8 * ((3240:ℝ)/1000)) ^ (-2 : ℤ)
      ≤ haalandF (6.48e-6 + 6.9/12106.395 : ℝ) := by
        apply le_haalandF_of_logb _ _ (by norm_num) (by norm_num)
        have h := le_logb_ten_of_pow (6.48e-6 + 6.9/12106.395 : ℝ) 3240 1000
          (by norm_num) (by norm_num) (by norm_num)
        push_cast at h
        convert h using 2
    _ ≤ haalandF ((1.5e-6 / (3.7 * 0.01905) : ℝ) ^ (1.11 : ℝ) + 6.9 / (10001.25 * v)) := by
        apply haalandF_mono _ _ (by norm_num) htlo
        calc (1.5e-6 / (3.7 * 0.01905) : ℝ) ^ (1.11 : ℝ) + 6.9 / (10001.25 * v)
            ≤ (6.55e-6 + 6.9/11696 : ℝ) := hthi
          _ < 1 := by norm_num

theorem rtF_anti (vs v : ℝ) (hvs : 0 < vs) (hle : vs ≤ v) (hR : 11696 ≤ 10001.25 * vs) :
    rtF v ≤ rtF vs := by
  have hv : 0 < v := lt_of_lt_of_le hvs hle
  have hRe1 : (1050 * v * 0.01905 / 0.002 : ℝ) = 10001.25 * v := by ring
  have hRe2 : (1050 * vs * 0.01905 / 0.002 : ℝ) = 10001.25 * vs := by ring
  have hdiv : (6.9:ℝ) / (10001.25 * v) ≤ 6.9 / (10001.25 * vs) :=
    div_le_div_of_nonneg_left (by norm_num) (by positivity) (by nlinarith)
  have hdivhi : (6.9:ℝ) / (10001.25 * vs) ≤ 6.9/11696 :=
    div_le_div_of_nonneg_left (by norm_num) (by norm_num) hR
  have htpos : (0:ℝ) < (1.5e-6 / (3.7 * 0.01905) : ℝ) ^ (1.11 : ℝ) + 6.9 / (10001.25 * v) := by
    have h1 : (0:ℝ) < 6.9 / (10001.25 * v) := by positivity
    nlinarith [rt_le_c]
  rw [rtF, rtF, hRe1, hRe2]
  apply haalandF_mono _ _ htpos (add_le_add le_rfl hdiv)
  calc (1.5e-6 / (3.7 * 0.01905) : ℝ) ^ (1.11 : ℝ) + 6.9 / (10001.25 * vs)
      ≤ 6.55e-6 + 6.9/11696 := add_le_add rt_c_le hdivhi
    _ < 1 := by norm_num

theorem rtF_pos (v : ℝ) (hv : 1 ≤ v) : 0 < rtF v := by
  have hRe : (1050 * v * 0.01905 / 0.002 : ℝ) = 10001.25 * v := by ring
  have hdivhi : (6.9:ℝ) / (10001.25 * v) ≤ 6.9/10001.25 :=
    div_le_div_of_nonneg_left (by norm_num) (by norm_num) (by nlinarith)
  have htpos : (0:ℝ) < (1.5e-6 / (3.7 * 0.01905) : ℝ) ^ (1.11 : ℝ) + 6.9 / (10001.25 * v) := by
    have h1 : (0:ℝ) < 6.9 / (10001.25 * v) := by positivity
    nlinarith [rt_le_c]
  rw [rtF, hRe]
  apply haalandF_pos _ htpos
  calc (1.5e-6 / (3.7 * 0.01905) : ℝ) ^ (1.11 : ℝ) + 6.9 / (10001.25 * v)
      ≤ 6.55e-6 + 6.9/10001.25 := add_le_add rt_c_le hdivhi
    _ < 1 := by norm_num

theorem rt_friction_ok (R : ℝ) (h1 : 2300 ≤ R) :
    friction_factor_haland 0.01905 1.5e-6 R =
      .ok (haalandF ((1.5e-6 / (3.7 * 0.01905) : ℝ) ^ (1.11 : ℝ) + 6.9 / R)) := by
  have hRpos : (0:ℝ) < R := by linarith
  have hdivhi : (6.9:ℝ) / R ≤ 6.9/2300 :=
    div_le_div_of_nonneg_left (by norm_num) (by norm_num) h1
  have htpos : (0:ℝ) < (1.5e-6 / (3.7 * 0.01905) : ℝ) ^ (1.11 : ℝ) + 6.9 / R := by
    have h2 : (0:ℝ) < 6.9 / R := by positivity
    nlinarith [rt_le_c]
  have htlt1 : (1.5e-6 / (3.7 * 0.01905) : ℝ) ^ (1.11 : ℝ) + 6.9 / R < 1 := by
    nlinarith [rt_c_le]
  have hlogb : Real.logb 10 ((1.5e-6 / (3.7 * 0.01905) : ℝ) ^ (1.11 : ℝ) + 6.9 / R) < 0 :=
    Real.logb_neg (by norm_num : (1:ℝ) < 10) htpos htlt1
  have hne : ¬ ((-1.8 * Real.logb 10
      ((1.5e-6 / (3.7 * 0.01905) : ℝ) ^ (1.11 : ℝ) + 6.9 / R)) = 0) := by nlinarith
  rw [friction_factor_haland, if_neg (not_le.mpr hRpos),
    if_neg (not_lt.mpr h1), if_neg (by norm_num : ¬ ((0.01905:ℝ) = 0)),
    if_neg (not_lt.mpr (by norm_num : (0:ℝ) ≤ 1.5e-6 / (3.7 * 0.01905)))]
  simp only []
  rw [if_neg (not_le.mpr htpos), if_neg hne]
  rfl

theorem rtDP_pos (vs : ℝ) (hvs : 1 ≤ vs) : 0 < rtDP vs := by
  have hf := rtF_pos vs hvs
  have hv2 : (1:ℝ) ≤ vs^2 := by nlinarith
  rw [rtDP]
  nlinarith [mul_pos hf (show (0:ℝ) < vs^2 by nlinarith)]

theorem rt_step_eval (vs v An Bn : ℝ)
    (hvs1 : 1 ≤ vs) (hv1 : 1 ≤ v)
    (hAn : 0 ≤ An) (hBn : 0 ≤ Bn) (hfv : 0 < rtF v)
    (hlow : An ^ 2 * rtF v ≤ rtF vs)
    (hup : rtF vs ≤ Bn ^ 2 * rtF v) :
    ∃ w, An * vs ≤ w ∧ w ≤ Bn * vs ∧
      ((¬ |w - v| < 1e-6 ∧
          flowStep 1050 0.002 0.01905 10 1.5e-6 0.0 (rtDP vs) 1e-6 v = .next w) ∨
       (|w - v| < 1e-6 ∧
          flowStep 1050 0.002 0.01905 10 1.5e-6 0.0 (rtDP vs) 1e-6 v = .brk w)) := by
  have hrey : reynolds_number 1050 0.002 v 0.01905 = .ok (1050 * v * 0.01905 / 0.002) := by
    rw [reynolds_number, if_neg (by norm_num)]
  have h2300 : (2300:ℝ) ≤ 1050 * v * 0.01905 / 0.002 := by
    rw [show (1050 * v * 0.01905 / 0.002 : ℝ) = 10001.25 * v by ring]
    nlinarith
  have hfric : friction_factor_haland 0.01905 1.5e-6 (1050 * v * 0.01905 / 0.002) =
      .ok (rtF v) := rt_friction_ok (1050 * v * 0.01905 / 0.002) h2300
  have hdenpos : (0:ℝ) < 1050 * (rtF v * (10 / 0.01905) + 0.0) / 2.0 := by nlinarith
  have hDPpos : 0 < rtDP vs := rtDP_pos vs hvs1
  have harglo : (An * vs) ^ 2 ≤ rtDP vs / (1050 * (rtF v * (10 / 0.01905) + 0.0) / 2.0) := by
    rw [le_div_iff hdenpos]
    calc (An * vs) ^ 2 * (1050 * (rtF v * (10 / 0.01905) + 0.0) / 2.0)
        = 1050 * (10 / 0.01905) / 2 * vs ^ 2 * (An ^ 2 * rtF v) := by ring
      _ ≤ 1050 * (10 / 0.01905) / 2 * vs ^ 2 * rtF vs :=
          mul_le_mul_of_nonneg_left hlow (by positivity)
      _ = rtDP vs := by rw [rtDP]; ring
  have harghi : rtDP vs / (1050 * (rtF v * (10 / 0.01905) + 0.0) / 2.0) ≤ (Bn * vs) ^ 2 := by
    rw [div_le_iff hdenpos]
    calc rtDP vs = 1050 * (10 / 0.01905) / 2 * vs ^ 2 * rtF vs := by rw [rtDP]; ring
      _ ≤ 1050 * (10 / 0.01905) / 2 * vs ^ 2 * (Bn ^ 2 * rtF v) :=
          mul_le_mul_of_nonneg_left hup (by positivity)
      _ = (Bn * vs) ^ 2 * (1050 * (rtF v * (10 / 0.01905) + 0.0) / 2.0) := by ring
  have hwlo : An * vs ≤
      Real.sqrt (rtDP vs / (1050 * (rtF v * (10 / 0.01905) + 0.0) / 2.0)) := by
    calc An * vs = Real.sqrt ((An * vs) ^ 2) := (Real.sqrt_sq (by positivity)).symm
      _ ≤ _ := Real.sqrt_le_sqrt harglo
  have hwhi : Real.sqrt (rtDP vs / (1050 * (rtF v * (10 / 0.01905) + 0.0) / 2.0)) ≤
      Bn * vs := by
    calc Real.sqrt (rtDP vs / (1050 * (rtF v * (10 / 0.01905) + 0.0) / 2.0))
        ≤ Real.sqrt ((Bn * vs) ^ 2) := Real.sqrt_le_sqrt harghi
      _ = Bn * vs := Real.sqrt_sq (by positivity)
  refine ⟨Real.sqrt (rtDP vs / (1050 * (rtF v * (10 / 0.01905) + 0.0) / 2.0)),
    hwlo, hwhi, ?_⟩
  rw [flowStep, hrey]
  simp only [if_pos (show v > 0 by linarith), hfric]
  rw [if_neg (not_le.mpr hdenpos),
    if_neg (not_lt.mpr (le_of_lt (div_pos hDPpos hdenpos)))]
  by_cases hbrk : |Real.sqrt (rtDP vs / (1050 * (rtF v * (10 / 0.01905) + 0.0) / 2.0)) - v| < 1e-6
  · right
    exact ⟨hbrk, by rw [if_pos hbrk]⟩
  · left
    exact ⟨hbrk, by rw [if_neg hbrk]⟩

theorem rt_Restar_bounds :
    11696 ≤ 10001.25 * (lpm_to_m3s 20 / (Real.pi * ((0.01905:ℝ) / 2.0) ^ 2)) ∧
    10001.25 * (lpm_to_m3s 20 / (Real.pi * ((0.01905:ℝ) / 2.0) ^ 2)) ≤ 11697 := by
  have hpi1 := Real.pi_gt_3141592
  have hpi2 := Real.pi_lt_3141593
  have hpipos := Real.pi_pos
  have heq : 10001.25 * (lpm_to_m3s 20 / (Real.pi * ((0.01905:ℝ) / 2.0) ^ 2)) =
      (14000000/381) / Real.pi := by
    have hne : Real.pi ≠ 0 := ne_of_gt hpipos
    rw [lpm_to_m3s]
    field_simp
    ring
  rw [heq]
  constructor
  · rw [le_div_iff hpipos]
    nlinarith
  · rw [div_le_iff hpipos]
    nlinarith

theorem rt_seed_bounds (vs : ℝ) (hvs1 : 1 ≤ vs)
    (hRL : 11696 ≤ 10001.25 * vs) (hRH : 10001.25 * vs ≤ 11697) :
    1.205 * vs ≤
      Real.sqrt ((2 * rtDP vs) / (1050 * (0.02 * (10 / 0.01905) + 0.0))) ∧
    Real.sqrt ((2 * rtDP vs) / (1050 * (0.02 * (10 / 0.01905) + 0.0))) ≤ 1.23 * vs := by
  have hstar := rtF_bound_star vs hRL hRH
  have hDpos : (0:ℝ) < 1050 * (0.02 * (10 / 0.01905) + 0.0) := by norm_num
  have hF1 : ((1.205:ℝ)) ^ 2 * 0.02 ≤ rtF vs := by
    calc ((1.205:ℝ)) ^ 2 * 0.02 ≤ (1.8 * ((3225:ℝ)/1000)) ^ (-2 : ℤ) := by norm_num
      _ ≤ rtF vs := hstar.1
  have hF2 : rtF vs ≤ ((1.23:ℝ)) ^ 2 * 0.02 := by
    calc rtF vs ≤ (1.8 * ((3224:ℝ)/1000)) ^ (-2 : ℤ) := hstar.2
      _ ≤ ((1.23:ℝ)) ^ 2 * 0.02 := by norm_num
  have harglo : (1.205 * vs) ^ 2 ≤
      (2 * rtDP vs) / (1050 * (0.02 * (10 / 0.01905) + 0.0)) := by
    rw [le_div_iff hDpos]
    calc (1.205 * vs) ^ 2 * (1050 * (0.02 * (10 / 0.01905) + 0.0))
        = 1050 * (10 / 0.01905) * vs ^ 2 * ((1.205:ℝ) ^ 2 * 0.02) := by ring
      _ ≤ 1050 * (10 / 0.01905) * vs ^ 2 * rtF vs :=
          mul_le_mul_of_nonneg_left hF1 (by positivity)
      _ = 2 * rtDP vs := by rw [rtDP]; ring
  have harghi : (2 * rtDP vs) / (1050 * (0.02 * (10 / 0.01905) + 0.0)) ≤
      (1.23 * vs) ^ 2 := by
    rw [div_le_iff hDpos]
    calc 2 * rtDP vs = 1050 * (10 / 0.01905) * vs ^ 2 * rtF vs := by rw [rtDP]; ring
      _ ≤ 1050 * (10 / 0.01905) * vs ^ 2 * ((1.23:ℝ) ^ 2 * 0.02) :=
          mul_le_mul_of_nonneg_left hF2 (by positivity)
      _ = (1.23 * vs) ^ 2 * (1050 * (0.02 * (10 / 0.01905) + 0.0)) := by ring
  constructor
  · calc 1.205 * vs = Real.sqrt ((1.205 * vs) ^ 2) := (Real.sqrt_sq (by positivity)).symm
      _ ≤ _ := Real.sqrt_le_sqrt harglo
  · calc Real.sqrt ((2 * rtDP vs) / (1050 * (0.02 * (10 / 0.01905) + 0.0)))
        ≤ Real.sqrt ((1.23 * vs) ^ 2) := Real.sqrt_le_sqrt harghi
      _ = 1.23 * vs := Real.sqrt_sq (by positivity)

theorem rt_loop_tail (vs : ℝ)
    (hvs1 : 1 ≤ vs) (hRL : 11696 ≤ 10001.25 * vs) (hRH : 10001.25 * vs ≤ 11697) :
    ∀ (n : ℕ) (v : ℝ), vs ≤ v → v ≤ 1.0075 * vs →
      ∃ vf u, flowLoop 1050 0.002 0.01905 10 1.5e-6 0.0 (rtDP vs) 1e-6
          (Real.pi * ((0.01905:ℝ) / 2.0) ^ 2) n v
          (Real.pi * ((0.01905:ℝ) / 2.0) ^ 2 * v) =
          .ok (vf, Real.pi * ((0.01905:ℝ) / 2.0) ^ 2 * u) ∧
        vs ≤ vf ∧ vs ≤ u ∧ u ≤ 1.0075 * vs := by
  intro n
  induction n with
  | zero =>
    intro v hv1 hv2
    exact ⟨v, v, rfl, le_trans hv1 le_rfl, hv1, hv2⟩
  | succ m ih =>
    intro v hv1 hv2
    have hv1' : (1:ℝ) ≤ v := le_trans hvs1 hv1
    have hr1 : 11696 ≤ 10001.25 * v := by nlinarith
    have hr2 : 10001.25 * v ≤ 12106.395 := by nlinarith
    have hFC := rtF_bound_tail v hr1 hr2
    have hfv_pos : 0 < rtF v := lt_of_lt_of_le (by norm_num) hFC
    have hlow : (1:ℝ) ^ 2 * rtF v ≤ rtF vs := by
      have := rtF_anti vs v (by linarith) hv1 hRL
      nlinarith
    have hup : rtF vs ≤ ((1.0075:ℝ)) ^ 2 * rtF v := by
      calc rtF vs ≤ (1.8 * ((3224:ℝ)/1000)) ^ (-2 : ℤ) := (rtF_bound_star vs hRL hRH).2
        _ ≤ ((1.0075:ℝ)) ^ 2 * ((1.8 * ((3240:ℝ)/1000)) ^ (-2 : ℤ)) := by norm_num
        _ ≤ ((1.0075:ℝ)) ^ 2 * rtF v := by nlinarith
    obtain ⟨w, hwlo, hwhi, hcase⟩ :=
      rt_step_eval vs v 1 1.0075 hvs1 hv1' (by norm_num) (by norm_num) hfv_pos hlow hup
    rw [one_mul] at hwlo
    rcases hcase with ⟨hnb, hstep⟩ | ⟨hb, hstep⟩
    · obtain ⟨vf, u, hloop, ha, hb', hc⟩ := ih w hwlo hwhi
      refine ⟨vf, u, ?_, ha, hb', hc⟩
      simp only [flowLoop, hstep]
      exact hloop
    · refine ⟨w, v, ?_, hwlo, hv1, hv2⟩
      simp only [flowLoop, hstep]

theorem rt_forward_run :
    pressure_drop_pipe 1050 0.002 (lpm_to_m3s 20) 0.01905 10 1.5e-6 [] =
      .ok ⟨lpm_to_m3s 20,
        lpm_to_m3s 20 / (Real.pi * ((0.01905:ℝ) / 2.0) ^ 2),
        1050 * (lpm_to_m3s 20 / (Real.pi * ((0.01905:ℝ) / 2.0) ^ 2)) * 0.01905 / 0.002,
        rtF (lpm_to_m3s 20 / (Real.pi * ((0.01905:ℝ) / 2.0) ^ 2)),
        rtF (lpm_to_m3s 20 / (Real.pi * ((0.01905:ℝ) / 2.0) ^ 2)) * (10 / 0.01905) * 0.5 *
          1050 * (lpm_to_m3s 20 / (Real.pi * ((0.01905:ℝ) / 2.0) ^ 2)) ^ 2,
        0.0 * 0.5 * 1050 * (lpm_to_m3s 20 / (Real.pi * ((0.01905:ℝ) / 2.0) ^ 2)) ^ 2,
        rtDP (lpm_to_m3s 20 / (Real.pi * ((0.01905:ℝ) / 2.0) ^ 2)),
        pa_to_psi (rtDP (lpm_to_m3s 20 / (Real.pi * ((0.01905:ℝ) / 2.0) ^ 2)))⟩ := by
  have hApos : (0:ℝ) < Real.pi * ((0.01905:ℝ) / 2.0) ^ 2 := by positivity
  have hQpos : (0:ℝ) < lpm_to_m3s 20 := by rw [lpm_to_m3s]; norm_num
  have hvpos : lpm_to_m3s 20 / (Real.pi * ((0.01905:ℝ) / 2.0) ^ 2) > 0 := by positivity
  have hrey : reynolds_number 1050 0.002
      (lpm_to_m3s 20 / (Real.pi * ((0.01905:ℝ) / 2.0) ^ 2)) 0.01905 =
      .ok (1050 * (lpm_to_m3s 20 / (Real.pi * ((0.01905:ℝ) / 2.0) ^ 2)) * 0.01905 / 0.002) := by
    rw [reynolds_number, if_neg (by norm_num)]
  have h2300 : (2300:ℝ) ≤
      1050 * (lpm_to_m3s 20 / (Real.pi * ((0.01905:ℝ) / 2.0) ^ 2)) * 0.01905 / 0.002 := by
    rw [show (1050 * (lpm_to_m3s 20 / (Real.pi * ((0.01905:ℝ) / 2.0) ^ 2)) * 0.01905 / 0.002 : ℝ)
        = 10001.25 * (lpm_to_m3s 20 / (Real.pi * ((0.01905:ℝ) / 2.0) ^ 2)) by ring]
    nlinarith [rt_Restar_bounds.1]
  have hfric : friction_factor_haland 0.01905 1.5e-6
      (1050 * (lpm_to_m3s 20 / (Real.pi * ((0.01905:ℝ) / 2.0) ^ 2)) * 0.01905 / 0.002) =
      .ok (rtF (lpm_to_m3s 20 / (Real.pi * ((0.01905:ℝ) / 2.0) ^ 2))) :=
    rt_friction_ok _ h2300
  rw [pressure_drop_pipe, if_neg (not_lt.mpr (le_of_lt hQpos)), if_neg (by norm_num),
    if_neg (not_le.mpr hApos)]
  simp only [if_pos hvpos, hrey, hfric]
  rfl

set_option maxHeartbeats 2000000 in
theorem rt_flow_run (vs : ℝ)
    (hRL : 11696 ≤ 10001.25 * vs) (hRH : 10001.25 * vs ≤ 11697) :
    ∃ vf u, 1 ≤ vf ∧ vs ≤ u ∧ u ≤ 1.0075 * vs ∧
      flow_from_pump_pressure 1050 0.002 0.01905 10 (rtDP vs) 1.5e-6 [] 1e-6 100 =
        .ok (.result ⟨Real.pi * ((0.01905:ℝ) / 2.0) ^ 2 * u,
            m3s_to_lpm (Real.pi * ((0.01905:ℝ) / 2.0) ^ 2 * u), vf,
            1050 * vf * 0.01905 / 0.002, rtF vf⟩) := by
  have hvs1 : (1:ℝ) ≤ vs := by nlinarith
  have hDPpos : 0 < rtDP vs := rtDP_pos vs hvs1
  obtain ⟨hseed_lo, hseed_hi⟩ := rt_seed_bounds vs hvs1 hRL hRH
  -- pass 0: from the seed velocity, one non-converging pass into [1.015 vs, 1.035 vs]
  have hv0_1 : (1:ℝ) ≤
      Real.sqrt ((2 * rtDP vs) / (1050 * (0.02 * (10 / 0.01905) + 0.0))) := by nlinarith
  have hr1_v0 : 14093.68 ≤ 10001.25 *
      Real.sqrt ((2 * rtDP vs) / (1050 * (0.02 * (10 / 0.01905) + 0.0))) := by
    nlinarith [mul_le_mul_of_nonneg_left hseed_lo (show (0:ℝ) ≤ 10001.25 by norm_num)]
  have hr2_v0 : 10001.25 *
      Real.sqrt ((2 * rtDP vs) / (1050 * (0.02 * (10 / 0.01905) + 0.0))) ≤ 14387.31 := by
    nlinarith [mul_le_mul_of_nonneg_left hseed_hi (show (0:ℝ) ≤ 10001.25 by norm_num)]
  have hB_v0 := rtF_bound_v0 _ hr1_v0 hr2_v0
  have hfv0_pos : 0 < rtF
      (Real.sqrt ((2 * rtDP vs) / (1050 * (0.02 * (10 / 0.01905) + 0.0)))) :=
    lt_of_lt_of_le (by norm_num) hB_v0.1
  have hstar := rtF_bound_star vs hRL hRH
  have hlow0 : (1.015:ℝ) ^ 2 * rtF
      (Real.sqrt ((2 * rtDP vs) / (1050 * (0.02 * (10 / 0.01905) + 0.0)))) ≤ rtF vs := by
    calc (1.015:ℝ) ^ 2 * rtF
          (Real.sqrt ((2 * rtDP vs) / (1050 * (0.02 * (10 / 0.01905) + 0.0))))
        ≤ (1.015:ℝ) ^ 2 * ((1.8 * ((3304:ℝ)/1000)) ^ (-2 : ℤ)) := by nlinarith [hB_v0.2]
      _ ≤ (1.8 * ((3225:ℝ)/1000)) ^ (-2 : ℤ) := by norm_num
      _ ≤ rtF vs := hstar.1
  have hup0 : rtF vs ≤ (1.035:ℝ) ^ 2 * rtF
      (Real.sqrt ((2 * rtDP vs) / (1050 * (0.02 * (10 / 0.01905) + 0.0)))) := by
    calc rtF vs ≤ (1.8 * ((3224:ℝ)/1000)) ^ (-2 : ℤ) := hstar.2
      _ ≤ (1.035:ℝ) ^ 2 * ((1.8 * ((3314:ℝ)/1000)) ^ (-2 : ℤ)) := by norm_num
      _ ≤ (1.035:ℝ) ^ 2 * rtF
          (Real.sqrt ((2 * rtDP vs) / (1050 * (0.02 * (10 / 0.01905) + 0.0)))) := by
        nlinarith [hB_v0.1]
  obtain ⟨v1, hv1_lo, hv1_hi, hcase0⟩ :=
    rt_step_eval vs _ 1.015 1.035 hvs1 hv0_1 (by norm_num) (by norm_num) hfv0_pos hlow0 hup0
  have hstep0 : flowStep 1050 0.002 0.01905 10 1.5e-6 0.0 (rtDP vs) 1e-6
      (Real.sqrt ((2 * rtDP vs) / (1050 * (0.02 * (10 / 0.01905) + 0.0)))) = .next v1 := by
    rcases hcase0 with ⟨_, h⟩ | ⟨habs, _⟩
    · exact h
    · exfalso
      have h1 : Real.sqrt ((2 * rtDP vs) / (1050 * (0.02 * (10 / 0.01905) + 0.0))) - v1 ≤
          |v1 - Real.sqrt ((2 * rtDP vs) / (1050 * (0.02 * (10 / 0.01905) + 0.0)))| := by
        rw [abs_sub_comm]
        exact le_abs_self _
      linarith
  -- pass 1: one more non-converging pass into [vs, 1.0075 vs]
  have hvs_le_v1 : vs ≤ v1 := by nlinarith
  have hv1_1 : (1:ℝ) ≤ v1 := le_trans hvs1 hvs_le_v1
  have hr1_v1 : 11696 ≤ 10001.25 * v1 := by
    nlinarith [mul_le_mul_of_nonneg_left hvs_le_v1 (show (0:ℝ) ≤ 10001.25 by norm_num)]
  have hr2_v1 : 10001.25 * v1 ≤ 12106.395 := by
    nlinarith [mul_le_mul_of_nonneg_left hv1_hi (show (0:ℝ) ≤ 10001.25 by norm_num)]
  have hFC1 := rtF_bound_tail v1 hr1_v1 hr2_v1
  have hfv1_pos : 0 < rtF v1 := lt_of_lt_of_le (by norm_num) hFC1
  have hlow1 : (1:ℝ) ^ 2 * rtF v1 ≤ rtF vs := by
    nlinarith [rtF_anti vs v1 (by linarith) hvs_le_v1 hRL]
  have hup1 : rtF vs ≤ (1.0075:ℝ) ^ 2 * rtF v1 := by
    calc rtF vs ≤ (1.8 * ((3224:ℝ)/1000)) ^ (-2 : ℤ) := hstar.2
      _ ≤ (1.0075:ℝ) ^ 2 * ((1.8 * ((3240:ℝ)/1000)) ^ (-2 : ℤ)) := by norm_num
      _ ≤ (1.0075:ℝ) ^ 2 * rtF v1 := by nlinarith [hFC1]
  obtain ⟨v2, hv2_lo, hv2_hi, hcase1⟩ :=
    rt_step_eval vs v1 1 1.0075 hvs1 hv1_1 (by norm_num) (by norm_num) hfv1_pos hlow1 hup1
  rw [one_mul] at hv2_lo
  have hstep1 : flowStep 1050 0.002 0.01905 10 1.5e-6 0.0 (rtDP vs) 1e-6 v1 = .next v2 := by
    rcases hcase1 with ⟨_, h⟩ | ⟨habs, _⟩
    · exact h
    · exfalso
      have h1 : v1 - v2 ≤ |v2 - v1| := by
        rw [abs_sub_comm]
        exact le_abs_self _
      linarith
  -- remaining 98 passes stay inside [vs, 1.0075 vs]
  obtain ⟨vf, u, hloop_tail, hvf_lo, hu_lo, hu_hi⟩ :=
    rt_loop_tail vs hvs1 hRL hRH 98 v2 hv2_lo hv2_hi
  have hvf1 : (1:ℝ) ≤ vf := le_trans hvs1 hvf_lo
  have hrey_vf : reynolds_number 1050 0.002 vf 0.01905 =
      .ok (1050 * vf * 0.01905 / 0.002) := by
    rw [reynolds_number, if_neg (by norm_num)]
  have h2300_vf : (2300:ℝ) ≤ 1050 * vf * 0.01905 / 0.002 := by
    rw [show (1050 * vf * 0.01905 / 0.002 : ℝ) = 10001.25 * vf by ring]
    nlinarith
  have hfric_vf : friction_factor_haland 0.01905 1.5e-6 (1050 * vf * 0.01905 / 0.002) =
      .ok (rtF vf) := rt_friction_ok _ h2300_vf
  refine ⟨vf, u, hvf1, hu_lo, hu_hi, ?_⟩
  rw [flow_from_pump_pressure, if_neg (not_le.mpr hDPpos)]
  simp only [eq_self_iff_true, if_true]
  rw [if_neg (by norm_num : ¬ ((0.01905:ℝ) = 0)),
    if_neg (by norm_num : ¬ ((1050 * (0.02 * (10 / 0.01905) + 0.0) : ℝ) = 0)),
    if_neg (not_lt.mpr (le_of_lt (div_pos (by linarith)
      (by norm_num : (0:ℝ) < 1050 * (0.02 * (10 / 0.01905) + 0.0)))))]
  have hunfold : ∀ (n : ℕ) (v Q : ℝ),
      flowLoop 1050 0.002 0.01905 10 1.5e-6 0.0 (rtDP vs) 1e-6
          (Real.pi * ((0.01905:ℝ) / 2.0) ^ 2) (n + 1) v Q =
        match flowStep 1050 0.002 0.01905 10 1.5e-6 0.0 (rtDP vs) 1e-6 v with
        | .fail e => .error e
        | .brk vb => .ok (vb, Q)
        | .next vn => flowLoop 1050 0.002 0.01905 10 1.5e-6 0.0 (rtDP vs) 1e-6
            (Real.pi * ((0.01905:ℝ) / 2.0) ^ 2) n vn
            (Real.pi * ((0.01905:ℝ) / 2.0) ^ 2 * vn) :=
    fun n v Q => rfl
  rw [show (100:ℕ) = 98 + 1 + 1 from rfl]
  rw [hunfold, hstep0]
  simp only []
  rw [hunfold, hstep1]
  simp only []
  rw [hloop_tail]
  simp only [if_pos (show vf > 0 by linarith), hrey_vf, Except.bind, hfric_vf]

/-- C7: round-trip.  For the spec scenario (`rho = 1050`, `mu = 0.002`,
`d = 0.01905`, `L = 10`, no fittings, `Q = 20 L/min`), computing the pressure
drop with `pressure_drop_pipe` and feeding the resulting `total_loss_Pa` back
into `flow_from_pump_pressure` (default tolerance `1e-6`, iteration cap 100)
recovers a flow within 1% of 20 L/min. -/
theorem round_trip_recovers_flow :
    ∃ (res : PressureDropResult) (r : FlowEstimateResult),
      pressure_drop_pipe 1050 0.002 (lpm_to_m3s 20) 0.01905 10 1.5e-6 [] = .ok res ∧
      flow_from_pump_pressure 1050 0.002 0.01905 10 res.total_loss_Pa 1.5e-6 [] 1e-6 100 =
        .ok (.result r) ∧
      |r.Q_lpm - 20| ≤ 0.01 * 20 := by
  obtain ⟨vf, u, hvf1, hu_lo, hu_hi, hflow⟩ :=
    rt_flow_run (lpm_to_m3s 20 / (Real.pi * ((0.01905:ℝ) / 2.0) ^ 2))
      rt_Restar_bounds.1 rt_Restar_bounds.2
  refine ⟨_, _, rt_forward_run, hflow, ?_⟩
  show |m3s_to_lpm (Real.pi * ((0.01905:ℝ) / 2.0) ^ 2 * u) - 20| ≤ 0.01 * 20
  have hApos : (0:ℝ) < Real.pi * ((0.01905:ℝ) / 2.0) ^ 2 := by positivity
  have hAvs : Real.pi * ((0.01905:ℝ) / 2.0) ^ 2 *
      (lpm_to_m3s 20 / (Real.pi * ((0.01905:ℝ) / 2.0) ^ 2)) = lpm_to_m3s 20 := by
    field_simp
    ring
  have h1 : lpm_to_m3s 20 ≤ Real.pi * ((0.01905:ℝ) / 2.0) ^ 2 * u := by
    calc lpm_to_m3s 20 = Real.pi * ((0.01905:ℝ) / 2.0) ^ 2 *
          (lpm_to_m3s 20 / (Real.pi * ((0.01905:ℝ) / 2.0) ^ 2)) := hAvs.symm
      _ ≤ Real.pi * ((0.01905:ℝ) / 2.0) ^ 2 * u :=
          mul_le_mul_of_nonneg_left hu_lo (le_of_lt hApos)
  have h2 : Real.pi * ((0.01905:ℝ) / 2.0) ^ 2 * u ≤ 1.0075 * lpm_to_m3s 20 := by
    calc Real.pi * ((0.01905:ℝ) / 2.0) ^ 2 * u
        ≤ Real.pi * ((0.01905:ℝ) / 2.0) ^ 2 *
          (1.0075 * (lpm_to_m3s 20 / (Real.pi * ((0.01905:ℝ) / 2.0) ^ 2))) :=
          mul_le_mul_of_nonneg_left hu_hi (le_of_lt hApos)
      _ = 1.0075 * (Real.pi * ((0.01905:ℝ) / 2.0) ^ 2 *
          (lpm_to_m3s 20 / (Real.pi * ((0.01905:ℝ) / 2.0) ^ 2))) := by ring
      _ = 1.0075 * lpm_to_m3s 20 := by rw [hAvs]
  rw [lpm_to_m3s] at h1 h2
  rw [m3s_to_lpm, abs_le]
  constructor
  · nlinarith
  · nlinarith
